import Mathlib

/-!
Verification development for the MoodMunchies recommendation core
(`python_ml/ml_engine`): a shallow embedding of the content scorer,
collaborative filter, search matcher, AI enrichment gateway and the hybrid
combination engine, together with theorems checking the specification's
claims against the embedded code.

Modelling conventions:
* Python floats are embedded as exact rationals (`ℚ`); values produced by
  cosine similarity (which needs a square root) live in `ℝ`.
* Python dicts keyed in insertion order are embedded as association lists;
  Python sets of ids are embedded as first-occurrence deduplicated lists.
* `sklearn`'s TF-IDF vectorizer is an external collaborator: the fitted
  vectors are inputs to the embedded functions; cosine similarity itself is
  embedded explicitly.
* Python truthiness: a string is truthy iff non-empty, an integer id is
  truthy iff non-zero.
-/

/-- Prefix test on character lists, used to embed Python's substring test. -/
def listIsPrefix : List Char → List Char → Bool
  | [], _ => true
  | _ :: _, [] => false
  | a :: as, b :: bs => a = b && listIsPrefix as bs

/-- Containment of `needle` as a contiguous substring of `hay`, embedding
Python's `needle in hay` on strings. -/
def listContainsSub (needle hay : List Char) : Bool :=
  match hay with
  | [] => needle.isEmpty
  | _ :: t => listIsPrefix needle hay || listContainsSub needle t

/-- Python `needle in hay` (substring containment). -/
def substrOf (needle hay : String) : Bool :=
  listContainsSub needle.toList hay.toList

/-- Python `any(word in hay for word in words)`. -/
def anySubstrOf (words : List String) (hay : String) : Bool :=
  words.any (fun w => substrOf w hay)

/-- Lowercasing a string character by character (ASCII modelling of
Python's `str.lower`; Lean's byte-position `String` primitives are avoided
because they do not reduce in the kernel). -/
def lowerStr (s : String) : String :=
  (s.toList.map Char.toLower).asString

/-- Strip of leading and trailing whitespace, embedding `str.strip()`. -/
def trimStr (s : String) : String :=
  (((s.toList.dropWhile Char.isWhitespace).reverse.dropWhile
    Char.isWhitespace).reverse).asString

/-- Python `str.startswith`. -/
def strStartsWith (pre s : String) : Bool :=
  listIsPrefix pre.toList s.toList

/-- Python `str.endswith`. -/
def strEndsWith (suf s : String) : Bool :=
  listIsPrefix suf.toList.reverse s.toList.reverse

/-- Python slicing `s[n:]` (drop the first `n` characters). -/
def strDrop (s : String) (n : Nat) : String :=
  (s.toList.drop n).asString

/-- Python slicing `s[:-n]` (drop the last `n` characters). -/
def strDropRight (s : String) (n : Nat) : String :=
  (s.toList.take (s.toList.length - n)).asString

/-- Whitespace-run split, embedding Python's `str.split()` (no empty
words). -/
def splitWsAux : List Char → List Char → List String
  | [], acc => if acc.isEmpty then [] else [acc.reverse.asString]
  | c :: rest, acc =>
    if c.isWhitespace then
      if acc.isEmpty then splitWsAux rest []
      else acc.reverse.asString :: splitWsAux rest []
    else splitWsAux rest (c :: acc)

/-- Python `str.split()`. -/
def splitWs (s : String) : List String :=
  splitWsAux s.toList []

/-- Dot product of two rational vectors over their common index range,
embedding the inner products taken by `sklearn.metrics.pairwise`. -/
def dotQ (u v : List ℚ) : ℚ :=
  ∑ i ∈ Finset.range (min u.length v.length), u.getD i 0 * v.getD i 0

/-- Cosine similarity of two vectors, embedding
`sklearn.metrics.pairwise.cosine_similarity` (zero vectors yield 0, which
matches Lean's division-by-zero convention). -/
noncomputable def cosineSim (u v : List ℚ) : ℝ :=
  ((dotQ u v : ℝ)) / (Real.sqrt ((dotQ u u : ℝ)) * Real.sqrt ((dotQ v v : ℝ)))

/-- User preference record passed through the engines (the
`user_preferences` dict of the Python code). -/
structure Preferences where
  mood : String
  occasion : String
  cuisine : String
  dietaryPreference : String
  time : String
  location : Option String := none
  additionalNotes : Option String := none
  deriving DecidableEq, Repr

/-- Restaurant record as stored in `restaurants.json` / produced by the AI
fetcher (`id`, name, attribute strings, score maps, provenance tags). -/
structure Restaurant where
  id : Int
  restaurantName : String := ""
  cuisine : String := ""
  location : String := ""
  address : String := ""
  contactDetails : String := ""
  popularDishes : List String := []
  dietaryOptions : List String := []
  priceRange : String := ""
  ambiance : String := ""
  moodScores : List (String × ℚ) := []
  occasionScores : List (String × ℚ) := []
  timeScores : List (String × ℚ) := []
  source : Option String := none
  fetchQuery : Option String := none
  locationHint : Option String := none
  userPreferences : Option Preferences := none
  deriving DecidableEq, Repr

/-- Python `dict.get(key, default)` on an insertion-ordered association
list: the value of the first matching key. -/
def dictGet (m : List (String × ℚ)) (key : String) (default : ℚ) : ℚ :=
  match m.find? (fun p => p.1 = key) with
  | some p => p.2
  | none => default

namespace RecommendationEngine

/-- Embeds `_calculate_mood_score`: `moodScores.get(mood.lower(), 0.5)`. -/
def calculateMoodScore (r : Restaurant) (mood : String) : ℚ :=
  dictGet r.moodScores (lowerStr mood) (1/2)

/-- Embeds `_calculate_occasion_score`. -/
def calculateOccasionScore (r : Restaurant) (occasion : String) : ℚ :=
  dictGet r.occasionScores (lowerStr occasion) (1/2)

/-- Embeds `_calculate_time_score`. -/
def calculateTimeScore (r : Restaurant) (time : String) : ℚ :=
  dictGet r.timeScores (lowerStr time) (1/2)

/-- Embeds `_check_dietary_compatibility`: for preference `non-vegetarian`,
accept iff the options list `non-vegetarian` or does not list `vegetarian`;
otherwise require case-insensitive membership of the preference. -/
def checkDietaryCompatibility (r : Restaurant) (dietaryPreference : String) : Bool :=
  let dietaryOptions := r.dietaryOptions.map lowerStr
  let p := (lowerStr dietaryPreference)
  if p = "non-vegetarian" then
    dietaryOptions.contains "non-vegetarian" || !(dietaryOptions.contains "vegetarian")
  else
    dietaryOptions.contains p

/-- Embeds `_check_cuisine_match`: 1.0 for `any` or an exact
case-insensitive match, else 0.3. -/
def checkCuisineMatch (r : Restaurant) (preferredCuisine : String) : ℚ :=
  if (lowerStr preferredCuisine) = "any" then 1
  else if (lowerStr r.cuisine) = (lowerStr preferredCuisine) then 1 else (3/10)

/-- Intent flags extracted from the free-text notes, embedding the
dictionary returned by `_process_additional_notes` (`none` embeds the empty
dict returned for absent notes). -/
structure NotesPreferences where
  spicy : Bool := false
  quiet : Bool := false
  romantic : Bool := false
  familyFriendly : Bool := false
  healthy : Bool := false
  fast : Bool := false
  affordable : Bool := false
  upscale : Bool := false
  deriving DecidableEq, Repr

/-- Embeds `_process_additional_notes`: keyword-list substring matching over
the lowercased notes; absent or empty notes yield no preferences. -/
def processAdditionalNotes (notes : Option String) : Option NotesPreferences :=
  match notes with
  | none => none
  | some s =>
    if s = "" then none
    else
      let t := (lowerStr s)
      some {
        spicy := anySubstrOf ["spicy", "hot", "heat", "fiery"] t
        quiet := anySubstrOf ["quiet", "peaceful", "calm", "serene"] t
        romantic := anySubstrOf ["romantic", "date", "intimate", "cozy"] t
        familyFriendly := anySubstrOf ["family", "kids", "children"] t
        healthy := anySubstrOf ["healthy", "fresh", "light", "nutritious"] t
        fast := anySubstrOf ["fast", "quick", "quickly", "hurry"] t
        affordable := anySubstrOf ["cheap", "affordable", "budget", "inexpensive"] t
        upscale := anySubstrOf ["fancy", "upscale", "elegant", "fine dining"] t }

/-- Sequential accumulation of `_calculate_notes_score`: matched weight and
total weight over the active flags (spicy 0.3; quiet, romantic,
family-friendly, healthy, affordable, upscale 0.2 each; `fast` is never
examined). -/
def notesScoreAccum (r : Restaurant) (p : NotesPreferences) : ℚ × ℚ :=
  ((if p.spicy then
      (if ["indian", "mexican", "thai", "chinese"].contains (lowerStr r.cuisine)
        then (3/10 : ℚ) else 0) else 0)
    + (if p.quiet then
        (if anySubstrOf ["quiet", "peaceful", "serene", "calm"] (lowerStr r.ambiance)
          then (1/5 : ℚ) else 0) else 0)
    + (if p.romantic then
        (if anySubstrOf ["romantic", "intimate", "cozy", "elegant"] (lowerStr r.ambiance)
          then (1/5 : ℚ) else 0) else 0)
    + (if p.familyFriendly then
        (if anySubstrOf ["family", "casual", "friendly"] (lowerStr r.ambiance)
          then (1/5 : ℚ) else 0) else 0)
    + (if p.healthy then
        (if anySubstrOf ["healthy", "fresh", "light"] (lowerStr r.ambiance)
          then (1/5 : ℚ) else 0) else 0)
    + (if p.affordable then
        (if (lowerStr r.priceRange) = "affordable" then (1/5 : ℚ) else 0) else 0)
    + (if p.upscale then
        (if ["expensive", "moderate"].contains (lowerStr r.priceRange)
          then (1/5 : ℚ) else 0) else 0),
   (if p.spicy then (3/10 : ℚ) else 0)
    + (if p.quiet then (1/5 : ℚ) else 0)
    + (if p.romantic then (1/5 : ℚ) else 0)
    + (if p.familyFriendly then (1/5 : ℚ) else 0)
    + (if p.healthy then (1/5 : ℚ) else 0)
    + (if p.affordable then (1/5 : ℚ) else 0)
    + (if p.upscale then (1/5 : ℚ) else 0))

/-- Embeds `_calculate_notes_score`: `score / total_weight` over the
accumulated weights, or 1.0 when the total weight is zero or no
preferences were extracted. -/
def calculateNotesScore (r : Restaurant) (notesPreferences : Option NotesPreferences) : ℚ :=
  match notesPreferences with
  | none => 1
  | some p =>
    if (notesScoreAccum r p).2 > 0
    then (notesScoreAccum r p).1 / (notesScoreAccum r p).2 else 1

/-- Embeds `_calculate_content_similarity`: cosine similarity between the
transformed user-preference text and the restaurant's precomputed feature
vector, floored at 0; 0.5 when there are no vectors or the restaurant's id
is not found in the catalog. `restVecs` are the TF-IDF vectors produced by
the external vectorizer for the current catalog, `userVec` the transform of
the joined cuisine/dietary/mood/occasion text. -/
noncomputable def calculateContentSimilarity (catalog : List Restaurant)
    (restVecs : Option (List (List ℚ))) (userVec : List ℚ) (r : Restaurant) : ℝ :=
  match restVecs with
  | none => (1/2 : ℝ)
  | some vecs =>
    match catalog.findIdx? (fun cand => cand.id = r.id) with
    | none => (1/2 : ℝ)
    | some idx => max 0 (cosineSim userVec (vecs.getD idx []))

/-- Weighted combination of the six sub-scores, embedding the
`final_score` expression of `RestaurantRecommendationEngine.recommend`
(mood 0.30, occasion 0.30, time 0.10, cuisine 0.10, similarity 0.10,
notes 0.10). -/
noncomputable def finalContentScore (catalog : List Restaurant)
    (restVecs : Option (List (List ℚ))) (userVec : List ℚ)
    (prefs : Preferences) (notesPreferences : Option NotesPreferences)
    (r : Restaurant) : ℝ :=
  (calculateMoodScore r prefs.mood : ℝ) * (3/10)
    + (calculateOccasionScore r prefs.occasion : ℝ) * (3/10)
    + (calculateTimeScore r prefs.time : ℝ) * (1/10)
    + (checkCuisineMatch r prefs.cuisine : ℝ) * (1/10)
    + calculateContentSimilarity catalog restVecs userVec r * (1/10)
    + (calculateNotesScore r notesPreferences : ℝ) * (1/10)

end RecommendationEngine

/-- Stable descending insertion by key, embedding the placement performed by
Python's stable `list.sort(key=..., reverse=True)`: an element being
inserted precedes every earlier-inserted element whose key is not larger. -/
def insertDescBy {α : Type} {β : Type} [LinearOrder β] (key : α → β) (x : α) :
    List α → List α
  | [] => [x]
  | y :: ys => if key y ≤ key x then x :: y :: ys else y :: insertDescBy key x ys

/-- Stable descending sort by key, embedding Python's
`list.sort(key=..., reverse=True)`. -/
def sortDescBy {α : Type} {β : Type} [LinearOrder β] (key : α → β) :
    List α → List α
  | [] => []
  | x :: xs => insertDescBy key x (sortDescBy key xs)

theorem mem_insertDescBy {α β : Type} [LinearOrder β] (key : α → β) (x a : α)
    (l : List α) : a ∈ insertDescBy key x l ↔ a = x ∨ a ∈ l := by
  induction l with
  | nil => simp [insertDescBy]
  | cons y ys ih =>
    by_cases h : key y ≤ key x
    · simp [insertDescBy, h]
    · simp only [insertDescBy, if_neg h, List.mem_cons, ih]
      tauto

theorem mem_sortDescBy {α β : Type} [LinearOrder β] (key : α → β) (a : α)
    (l : List α) : a ∈ sortDescBy key l ↔ a ∈ l := by
  induction l with
  | nil => simp [sortDescBy]
  | cons x xs ih => simp [sortDescBy, mem_insertDescBy, ih]

theorem sorted_insertDescBy {α β : Type} [LinearOrder β] (key : α → β) (x : α)
    (l : List α) (h : List.Sorted (fun a b => key b ≤ key a) l) :
    List.Sorted (fun a b => key b ≤ key a) (insertDescBy key x l) := by
  induction l with
  | nil => simp [insertDescBy]
  | cons y ys ih =>
    rcases List.sorted_cons.mp h with ⟨hy, hys⟩
    by_cases hle : key y ≤ key x
    · simp only [insertDescBy, if_pos hle]
      refine List.sorted_cons.mpr ⟨?_, h⟩
      intro b hb
      rcases List.mem_cons.mp hb with hb | hb
      · exact hb ▸ hle
      · exact le_trans (hy b hb) hle
    · simp only [insertDescBy, if_neg hle]
      refine List.sorted_cons.mpr ⟨?_, ih hys⟩
      intro b hb
      rcases (mem_insertDescBy key x b ys).mp hb with hb | hb
      · exact hb ▸ le_of_not_le hle
      · exact hy b hb

theorem sorted_sortDescBy {α β : Type} [LinearOrder β] (key : α → β)
    (l : List α) : List.Sorted (fun a b => key b ≤ key a) (sortDescBy key l) := by
  induction l with
  | nil => simp [sortDescBy]
  | cons x xs ih => exact sorted_insertDescBy key x _ ih

@[simp]
theorem sortDescBy_nil {α β : Type} [LinearOrder β] (key : α → β) :
    sortDescBy key ([] : List α) = [] := rfl

/-- Ascending insertion with a boolean comparator (used to embed Python's
`sorted` on distinct ids, where kernel-reducible comparisons matter). -/
def insertAscBy {α : Type} (le : α → α → Bool) (x : α) : List α → List α
  | [] => [x]
  | y :: ys => if le x y then x :: y :: ys else y :: insertAscBy le x ys

/-- Ascending insertion sort with a boolean comparator. -/
def sortAscBy {α : Type} (le : α → α → Bool) : List α → List α
  | [] => []
  | x :: xs => insertAscBy le x (sortAscBy le xs)

theorem mem_insertAscBy {α : Type} (le : α → α → Bool) (x a : α) (l : List α) :
    a ∈ insertAscBy le x l ↔ a = x ∨ a ∈ l := by
  induction l with
  | nil => simp [insertAscBy]
  | cons y ys ih =>
    by_cases h : le x y
    · simp [insertAscBy, h]
    · simp only [insertAscBy, if_neg h, List.mem_cons, ih]
      tauto

theorem mem_sortAscBy {α : Type} (le : α → α → Bool) (a : α) (l : List α) :
    a ∈ sortAscBy le l ↔ a ∈ l := by
  induction l with
  | nil => simp [sortAscBy]
  | cons x xs ih => simp [sortAscBy, mem_insertAscBy, ih]

theorem length_insertAscBy {α : Type} (le : α → α → Bool) (x : α) (l : List α) :
    (insertAscBy le x l).length = l.length + 1 := by
  induction l with
  | nil => simp [insertAscBy]
  | cons y ys ih =>
    by_cases h : le x y <;> simp [insertAscBy, h, ih]

theorem length_sortAscBy {α : Type} (le : α → α → Bool) (l : List α) :
    (sortAscBy le l).length = l.length := by
  induction l with
  | nil => rfl
  | cons x xs ih => simp [sortAscBy, length_insertAscBy, ih]

theorem nodup_insertAscBy {α : Type} (le : α → α → Bool) (x : α) (l : List α)
    (hx : x ∉ l) (h : l.Nodup) : (insertAscBy le x l).Nodup := by
  induction l with
  | nil => simp [insertAscBy]
  | cons y ys ih =>
    rcases List.nodup_cons.mp h with ⟨hy, hys⟩
    by_cases hle : le x y
    · simp only [insertAscBy, if_pos hle]
      exact List.nodup_cons.mpr ⟨by simpa using hx, h⟩
    · simp only [insertAscBy, if_neg hle]
      refine List.nodup_cons.mpr ⟨?_, ih (fun hc => hx (List.mem_cons_of_mem _ hc)) hys⟩
      intro hc
      rcases (mem_insertAscBy le x y ys).mp hc with hc | hc
      · exact hx (hc ▸ List.mem_cons_self _ _)
      · exact hy hc

theorem nodup_sortAscBy {α : Type} (le : α → α → Bool) (l : List α)
    (h : l.Nodup) : (sortAscBy le l).Nodup := by
  induction l with
  | nil => simp [sortAscBy]
  | cons x xs ih =>
    rcases List.nodup_cons.mp h with ⟨hx, hxs⟩
    exact nodup_insertAscBy le x _ (fun hc => hx ((mem_sortAscBy le x xs).mp hc)) (ih hxs)

/-- Code-point comparison of character lists, embedding Python string
ordering for `sorted`. -/
def charListLe : List Char → List Char → Bool
  | [], _ => true
  | _ :: _, [] => false
  | a :: as, b :: bs =>
    if a.toNat < b.toNat then true
    else if b.toNat < a.toNat then false
    else charListLe as bs

/-- Boolean string comparison for `sorted`. -/
def strLeB (a b : String) : Bool :=
  charListLe a.toList b.toList

/-- Boolean integer comparison for `sorted`. -/
def intLeB (a b : Int) : Bool :=
  decide (a ≤ b)

@[simp]
theorem sortDescBy_singleton {α β : Type} [LinearOrder β] (key : α → β)
    (x : α) : sortDescBy key [x] = [x] := rfl

namespace RecommendationEngine

/-- Embeds the scoring loop of `RestaurantRecommendationEngine.recommend`:
each restaurant passing the dietary gate receives its weighted score; the
candidates keep catalog order prior to sorting. -/
noncomputable def scoredRestaurants (catalog : List Restaurant)
    (restVecs : Option (List (List ℚ))) (userVec : List ℚ)
    (prefs : Preferences) : List (Restaurant × ℝ) :=
  let notesPreferences := processAdditionalNotes prefs.additionalNotes
  (catalog.filter (fun r => checkDietaryCompatibility r prefs.dietaryPreference)).map
    (fun r => (r, finalContentScore catalog restVecs userVec prefs notesPreferences r))

/-- Embeds `RestaurantRecommendationEngine.recommend`: score the gated
catalog, sort descending by score (stable) and keep the top 9. -/
noncomputable def contentRecommend (catalog : List Restaurant)
    (restVecs : Option (List (List ℚ))) (userVec : List ℚ)
    (prefs : Preferences) : List (Restaurant × ℝ) :=
  (sortDescBy Prod.snd (scoredRestaurants catalog restVecs userVec prefs)).take 9

end RecommendationEngine

namespace SearchMatcher

/-- Character replacement step of `_extract_keywords`: Python
`re.sub(r'[^\w\s]', ' ', query.lower())` maps every character that is
neither a word character nor whitespace to a space (ASCII modelling of
`\w`). -/
def cleanChar (c : Char) : Char :=
  if c.isAlphanum || c = '_' || c.isWhitespace then c else ' '

/-- Embeds `_extract_keywords`: lowercase, replace special characters by
spaces, split on whitespace, keep words longer than 2 characters. -/
def extractKeywords (query : String) : List String :=
  (splitWs (((lowerStr query).toList.map cleanChar).asString)).filter
    (fun w => w.length > 2)

/-- Embeds `_keyword_match_score`: fraction of keywords occurring as
substrings of the restaurant's searchable text. -/
def keywordMatchScore (r : Restaurant) (keywords : List String) : ℚ :=
  if keywords = [] then 0
  else
    let searchableText := String.intercalate " "
      [(lowerStr r.restaurantName), (lowerStr r.cuisine), (lowerStr r.location),
        (lowerStr r.ambiance),
        String.intercalate " " (r.popularDishes.map lowerStr)]
    ((keywords.filter (fun k => substrOf k searchableText)).length : ℚ) /
      (keywords.length : ℚ)

/-- Embeds the body of `SearchQueryMatcher.search` once the query and the
index are known to be non-empty: semantic cosine score per restaurant,
keyword score, 0.7/0.3 blend, threshold at `minScore`, stable descending
sort, top `topK`. `restVecs` and `queryVec` come from the external TF-IDF
vectorizer fitted on the catalog's searchable texts. -/
noncomputable def searchScored (catalog : List Restaurant)
    (restVecs : List (List ℚ)) (queryVec : List ℚ) (query : String)
    (minScore : ℝ) : List (Restaurant × ℝ) :=
  let keywords := extractKeywords query
  let scored := (catalog.enum.map (fun p =>
    let semanticScore := cosineSim queryVec (restVecs.getD p.1 [])
    let keywordScore := keywordMatchScore p.2 keywords
    (p.2, semanticScore * (7/10) + (keywordScore : ℝ) * (3/10)))).filter
    (fun p => minScore ≤ p.2)
  sortDescBy Prod.snd scored

/-- Embeds `SearchQueryMatcher.search` including its guard: an empty query
or an absent index yields no results. -/
noncomputable def search (catalog : List Restaurant)
    (restVecs : Option (List (List ℚ))) (queryVec : List ℚ) (query : String)
    (topK : Nat) (minScore : ℝ) : List (Restaurant × ℝ) :=
  match restVecs with
  | none => []
  | some vecs =>
    if query = "" then []
    else (searchScored catalog vecs queryVec query minScore).take topK

/-- Preference guess returned by `match_query_to_preferences`. -/
structure QueryPreferences where
  mood : Option String
  occasion : Option String
  cuisine : Option String
  dietary : Option String
  priceRange : Option String
  keywords : List String
  deriving DecidableEq, Repr

/-- First category whose keyword list matches the query, embedding the
first-match-wins loops of `match_query_to_preferences`. -/
def firstCategoryMatch (table : List (String × List String)) (queryLower : String)
    (fallback : Option String) : Option String :=
  match table.find? (fun p => anySubstrOf p.2 queryLower) with
  | some p => some p.1
  | none => fallback

/-- Embeds `match_query_to_preferences`: fixed ordered keyword tables for
mood, occasion, cuisine, dietary and price; hints are fallback defaults. -/
def matchQueryToPreferences (query : String) (mood occasion cuisine : Option String) :
    QueryPreferences :=
  let queryLower := (lowerStr query)
  { mood := firstCategoryMatch
      [("happy", ["happy", "cheerful", "joyful", "excited"]),
       ("sad", ["sad", "down", "depressed", "blue"]),
       ("stressed", ["stressed", "tired", "exhausted", "busy"]),
       ("adventurous", ["adventurous", "exciting", "new", "try"]),
       ("relaxed", ["relaxed", "calm", "peaceful", "chill"]),
       ("celebratory", ["celebrate", "celebration", "special", "party"])]
      queryLower mood
    occasion := firstCategoryMatch
      [("casual meal", ["casual", "quick", "simple"]),
       ("celebration", ["celebration", "birthday", "anniversary", "special"]),
       ("quick bite", ["quick", "fast", "grab"]),
       ("date night", ["date", "romantic", "dinner date"]),
       ("family dinner", ["family", "kids", "children"])]
      queryLower occasion
    cuisine := firstCategoryMatch
      [("italian", ["italian", "pasta", "pizza"]),
       ("mexican", ["mexican", "taco", "burrito"]),
       ("indian", ["indian", "curry", "tikka"]),
       ("japanese", ["japanese", "sushi", "ramen"]),
       ("chinese", ["chinese", "dim sum"]),
       ("american", ["american", "burger", "bbq"])]
      queryLower cuisine
    dietary :=
      if anySubstrOf ["vegetarian", "veggie"] queryLower then some "vegetarian"
      else if anySubstrOf ["vegan"] queryLower then some "vegan"
      else if anySubstrOf ["gluten-free", "gluten free"] queryLower then some "gluten-free"
      else none
    priceRange :=
      if anySubstrOf ["cheap", "affordable", "budget"] queryLower then some "affordable"
      else if anySubstrOf ["expensive", "fancy", "upscale", "fine dining"] queryLower
        then some "expensive"
      else none
    keywords := extractKeywords query }

end SearchMatcher

namespace CollaborativeFiltering

/-- Interaction event as stored in `user_interactions.json` (rating and the
click/view markers are present only when supplied). -/
structure Interaction where
  userId : String
  restaurantId : Int
  timestamp : String := ""
  rating : Option ℚ := none
  clicked : Bool := false
  viewed : Bool := false
  deriving DecidableEq, Repr

/-- Embeds `add_interaction`'s event construction: rating clamped to
[0, 5], markers recorded only when set, event appended to the log. -/
def addInteraction (log : List Interaction) (userId : String) (restaurantId : Int)
    (timestamp : String) (rating : Option ℚ) (clicked viewed : Bool) :
    List Interaction :=
  log ++ [{ userId := userId, restaurantId := restaurantId,
            timestamp := timestamp,
            rating := rating.map (fun x => max 0 (min 5 x)),
            clicked := clicked, viewed := viewed }]

/-- Interaction score used by `_build_similarity_matrix`:
`rating * 2.0 + 1.0·[clicked] + 0.5·[viewed]` with absent rating read as 0. -/
def interactionScore (i : Interaction) : ℚ :=
  i.rating.getD 0 * 2 + (if i.clicked then 1 else 0) + (if i.viewed then (1/2) else 0)

/-- Interactions admitted by the `if user_id and restaurant_id` truthiness
guard shared by `_build_similarity_matrix` and
`get_collaborative_recommendations`. -/
def validInteractions (log : List Interaction) : List Interaction :=
  log.filter (fun i => i.userId ≠ "" && i.restaurantId ≠ 0)

/-- Sorted distinct user ids of the valid interactions
(`sorted(list(user_ids))`). -/
def userIds (log : List Interaction) : List String :=
  sortAscBy strLeB ((validInteractions log).map (fun i => i.userId)).dedup

/-- Sorted distinct restaurant ids of the valid interactions
(`sorted(list(restaurant_ids))`). -/
def restaurantIds (log : List Interaction) : List Int :=
  sortAscBy intLeB ((validInteractions log).map (fun i => i.restaurantId)).dedup

/-- Entry of the user-restaurant matrix: the score of the last valid
interaction of `u` with `r` (repeated dict assignment keeps the last
write), 0 when none. -/
def entryScore (log : List Interaction) (u : String) (r : Int) : ℚ :=
  match ((validInteractions log).reverse).find?
      (fun i => i.userId = u && i.restaurantId = r) with
  | some i => interactionScore i
  | none => 0

/-- Dense interaction-score vector of a user over the sorted restaurant-id
space, zero-filled. -/
def userVector (log : List Interaction) (u : String) : List ℚ :=
  (restaurantIds log).map (entryScore log u)

/-- Pairwise user similarity value fed into the matrix. -/
noncomputable def similarityValue (log : List Interaction) (u v : String) : ℝ :=
  cosineSim (userVector log u) (userVector log v)

/-- Embeds the stored `user_similarity_matrix` as a partial map: the entry
`(u, v)` exists iff at least two users have valid interactions, both ids
occur, and `u ≠ v` (the diagonal is skipped by the `if i != j` guard);
with fewer than two users the matrix is the empty dict. -/
noncomputable def simMatrix (log : List Interaction) (u v : String) : Option ℝ :=
  if 2 ≤ (userIds log).length ∧ u ∈ userIds log ∧ v ∈ userIds log ∧ u ≠ v then
    some (similarityValue log u v)
  else none

/-- Embeds `get_similar_users`: neighbors of `u` (matrix row in insertion
order, which is sorted user order) sorted descending by similarity, top
`topK`; empty when the matrix is empty or `u` is unknown. -/
noncomputable def getSimilarUsers (log : List Interaction) (u : String)
    (topK : Nat) : List (String × ℝ) :=
  if 2 ≤ (userIds log).length ∧ u ∈ userIds log then
    (sortDescBy Prod.snd (((userIds log).filter (fun v => v ≠ u)).map
      (fun v => (v, similarityValue log u v)))).take topK
  else []

/-- Distinct restaurants a user interacted with
(`user_restaurant_interactions[uid]`, a Python set; iteration order is
modelled by `List.dedup`). -/
def touchedRestaurants (log : List Interaction) (u : String) : List Int :=
  (((validInteractions log).filter (fun i => i.userId = u)).map
    (fun i => i.restaurantId)).dedup

/-- Add `s` to the similarity total of key `r` in the insertion-ordered
accumulator dict. -/
def upsertAdd (r : Int) (s : ℝ) : List (Int × ℝ) → List (Int × ℝ)
  | [] => [(r, s)]
  | p :: t => if p.1 = r then (p.1, p.2 + s) :: t else p :: upsertAdd r s t

/-- Embeds the `collaborative_scores` accumulation loop: for each of the
top-10 similar users, add their similarity to every restaurant they
interacted with. (The separate rating-sum aggregate `restaurant_scores`
computed alongside is never read and is not embedded.) -/
noncomputable def collaborativeScores (log : List Interaction) (u : String) :
    List (Int × ℝ) :=
  (getSimilarUsers log u 10).foldl
    (fun d p => (touchedRestaurants log p.1).foldl (fun d r => upsertAdd r p.2 d) d)
    []

/-- Embeds `get_collaborative_recommendations`: guard on the matrix and
user, accumulate similarity sums, drop restaurants the target user already
interacted with or that are absent from the catalog (`restaurant_dict`
keeps the last record per id), sort descending, truncate to `topK`. -/
noncomputable def getCollaborativeRecommendations (log : List Interaction)
    (u : String) (restaurants : List Restaurant) (topK : Nat) :
    List (Restaurant × ℝ) :=
  if 2 ≤ (userIds log).length ∧ u ∈ userIds log then
    let similarUsers := getSimilarUsers log u 10
    if similarUsers.isEmpty then []
    else
      let userRestaurants := touchedRestaurants log u
      let scored := (collaborativeScores log u).filterMap (fun p =>
        match (restaurants.reverse).find? (fun rest => rest.id = p.1) with
        | some rest =>
          if p.1 ∈ userRestaurants then none else some (rest, p.2)
        | none => none)
      (sortDescBy Prod.snd scored).take topK
  else []

end CollaborativeFiltering

namespace AIDataFetcher

/-- Word character for the ASCII modelling of the regex class `\w`. -/
def isWordChar (c : Char) : Bool :=
  c.isAlphanum || c = '_'

/-- Collapse every whitespace run to a single space, embedding
`re.sub(r'\s+', ' ', text)`; the flag records whether the previous kept
character belonged to a run. -/
def collapseWsAux : Bool → List Char → List Char
  | _, [] => []
  | prev, c :: rest =>
    if c.isWhitespace then
      if prev then collapseWsAux true rest else ' ' :: collapseWsAux true rest
    else c :: collapseWsAux false rest

/-- Embeds `_normalize_text`: lowercase and strip, drop characters that are
neither word characters nor whitespace (`re.sub(r'[^\w\s]', '', ...)`),
collapse whitespace runs to single spaces. -/
def normalizeText (text : String) : String :=
  if text = "" then ""
  else
    let t := trimStr (lowerStr text)
    ((collapseWsAux false (t.toList.filter
      (fun c => isWordChar c || c.isWhitespace)))).asString

/-- Embeds `_is_duplicate`: a candidate duplicates some existing record iff
normalized names match exactly, or one normalized name contains the other
and either both normalized addresses are present and equal, or some address
is missing and both names exceed 5 characters; a candidate with an empty
normalized name is never a duplicate. -/
def isDuplicate (newRestaurant : Restaurant) (existingRestaurants : List Restaurant) :
    Bool :=
  let newName := normalizeText newRestaurant.restaurantName
  let newAddress := normalizeText newRestaurant.address
  if newName = "" then false
  else existingRestaurants.any (fun existing =>
    let existingName := normalizeText existing.restaurantName
    let existingAddress := normalizeText existing.address
    if newName = existingName then true
    else if existingName ≠ "" &&
        (substrOf newName existingName || substrOf existingName newName) then
      if newAddress ≠ "" && existingAddress ≠ "" then
        newAddress = existingAddress
      else
        newName.length > 5 && existingName.length > 5
    else false)

/-- Embeds the code-fence stripping of `_fetch_with_openai` /
`_fetch_with_gemini` applied to the stripped response text before
`json.loads`. -/
def stripCodeFences (content : String) : String :=
  let c := trimStr content
  let c := if strStartsWith "```json" c then strDrop c 7 else c
  let c := if strStartsWith "```" c then strDrop c 3 else c
  let c := if strEndsWith "```" c then strDropRight c 3 else c
  trimStr c

/-- Raw-text outcome of one external AI call: the prompt is built from the
query, location hint and requested count, and the provider either returns
text or raises (network/auth errors are `Except.error`). -/
def ProviderRespond : Type :=
  String → Option String → Nat → Except String String

/-- Outcome of `json.loads` on the cleaned text: `none` models a parse
exception, otherwise a JSON array of records or a single record (which the
code wraps into a one-element list). -/
def JsonParse : Type :=
  String → Option (List Restaurant ⊕ Restaurant)

/-- Embeds `_fetch_with_openai` / `_fetch_with_gemini` (identical control
flow): missing client yields no candidates; any provider exception and any
JSON-parse failure is caught by the surrounding `try`/`except` and yields
no candidates; a single JSON object is wrapped into a one-element list. -/
def fetchWithModel (available : Bool) (respond : ProviderRespond)
    (parse : JsonParse) (query : String) (location : Option String)
    (maxResults : Nat) : List Restaurant :=
  if !available then []
  else
    match respond query location maxResults with
    | .error _ => []
    | .ok raw =>
      match parse (stripCodeFences raw) with
      | none => []
      | some (.inl restaurants) => restaurants
      | some (.inr restaurant) => [restaurant]

/-- Embeds the query enhancement of `fetch_restaurant_data`: append the
truthy preference fields as `", "`-joined `key: value` parts. -/
def enhanceQuery (query : String) (userPreferences : Option Preferences) : String :=
  match userPreferences with
  | none => query
  | some p =>
    let parts :=
      (if p.mood ≠ "" then ["mood: " ++ p.mood] else []) ++
      (if p.occasion ≠ "" then ["occasion: " ++ p.occasion] else []) ++
      (if p.cuisine ≠ "" then ["cuisine: " ++ p.cuisine] else []) ++
      (if p.dietaryPreference ≠ "" then ["dietary: " ++ p.dietaryPreference] else [])
    if parts = [] then query
    else query ++ ". Preferences: " ++ String.intercalate ", " parts

/-- Persistent state of the fetcher: the read-only base catalog snapshot
and the fetched-restaurant store. -/
structure FetcherState where
  baseRestaurants : List Restaurant
  fetched : List Restaurant
  deriving DecidableEq, Repr

/-- Availability and outcome of the two external AI clients plus the JSON
parser, bundled; `fetch_restaurant_data` tries Gemini first, then OpenAI. -/
structure Providers where
  geminiAvailable : Bool
  openaiAvailable : Bool
  respondGemini : ProviderRespond
  respondOpenai : ProviderRespond
  parseJson : JsonParse

/-- Embeds the dedup-and-assign loop of `fetch_restaurant_data`: candidates
are checked against the union of base and previously fetched records
(computed once, before the loop), non-duplicates get sequential ids and
provenance tags. Returns the accepted records. -/
def dedupAssign (allExisting : List Restaurant) (firstId : Int)
    (query : String) (location : Option String)
    (userPreferences : Option Preferences) (candidates : List Restaurant) :
    List Restaurant :=
  (candidates.foldl (fun acc cand =>
    if isDuplicate cand allExisting then acc
    else
      (acc.1 + 1, acc.2 ++ [{ cand with
        id := acc.1,
        source := some "ai_fetched",
        fetchQuery := some query,
        locationHint := location,
        userPreferences := match userPreferences with
          | some p => some p
          | none => cand.userPreferences }]))
    (firstId, [])).2

/-- Embeds `fetch_restaurant_data`: enhance the query, call the first
available provider, drop duplicates against base + previously fetched
records, assign ids continuing from the maximum existing id (1000 when
there are none), tag provenance, persist accepted records into the fetched
store and return them. -/
def fetchRestaurantData (pr : Providers) (st : FetcherState) (query : String)
    (location : Option String) (maxResults : Nat)
    (userPreferences : Option Preferences) : List Restaurant × FetcherState :=
  let enhancedQuery := enhanceQuery query userPreferences
  let restaurantsData :=
    if pr.geminiAvailable then
      fetchWithModel true pr.respondGemini pr.parseJson enhancedQuery location maxResults
    else if pr.openaiAvailable then
      fetchWithModel true pr.respondOpenai pr.parseJson enhancedQuery location maxResults
    else []
  if restaurantsData.isEmpty then ([], st)
  else
    let allExisting := st.baseRestaurants ++ st.fetched
    let existingIds := allExisting.map (fun r => r.id)
    let nextId := match existingIds.max? with
      | some m => m + 1
      | none => 1000
    let newRestaurants :=
      dedupAssign allExisting nextId query location userPreferences restaurantsData
    if newRestaurants.isEmpty then (newRestaurants, st)
    else (newRestaurants, { st with fetched := st.fetched ++ newRestaurants })

/-- Embeds `search_fetched_restaurants`: substring/keyword match of the
query against name+cuisine+location+ambiance of previously fetched records;
when nothing matches, an AI client exists and `fetchIfNotFound` is set,
fall through to `fetch_restaurant_data` with `max_results=5`. -/
def searchFetchedRestaurants (pr : Providers) (st : FetcherState) (query : String)
    (location : Option String) (userPreferences : Option Preferences)
    (fetchIfNotFound : Bool) : List Restaurant × FetcherState :=
  let queryLower := (lowerStr query)
  let matching := st.fetched.filter (fun r =>
    let restaurantText := lowerStr (String.intercalate " "
      [r.restaurantName, r.cuisine, r.location, r.ambiance])
    substrOf queryLower restaurantText ||
      (splitWs queryLower).any
        (fun word => word.length > 2 && substrOf word restaurantText))
  if matching.isEmpty && fetchIfNotFound &&
      (pr.geminiAvailable || pr.openaiAvailable) then
    fetchRestaurantData pr st query location 5 userPreferences
  else (matching, st)

end AIDataFetcher

namespace EnhancedEngine

open RecommendationEngine CollaborativeFiltering AIDataFetcher SearchMatcher

/-- Per-restaurant sub-score record of `_combine_recommendations`
(`restaurant_scores[rest_id]`), with the stored (already boosted) search
and ai scores. -/
structure ScoreBundle where
  contentScore : ℝ := 0
  collabScore : ℝ := 0
  searchScore : ℝ := 0
  aiScore : ℝ := 0

/-- Configured source weights of `_combine_recommendations`: the
query-driven set when search or ai results are present, the default set
otherwise. -/
structure Weights where
  content : ℚ
  collab : ℚ
  searchW : ℚ
  ai : ℚ
  deriving DecidableEq, Repr

/-- Weight selection of `_combine_recommendations` (lines 254-265). -/
def sourceWeights (hasSearch hasAI : Bool) : Weights :=
  if hasSearch || hasAI then
    { content := 3/10, collab := 1/5,
      searchW := if hasSearch then 3/10 else 0,
      ai := if hasAI then 1/5 else 0 }
  else
    { content := 2/5, collab := 3/10, searchW := 1/5, ai := 1/10 }

/-- Embeds the final-score computation of `_combine_recommendations`
(lines 329-371) for one restaurant: normalize the four stored sub-scores,
fold the weight of each zero collaborative/search/ai sub-score onto the
content weight, renormalize the adjusted weights by their sum when it is
positive, and take the weighted sum. -/
noncomputable def combineFinalScore (hasSearch hasAI : Bool) (b : ScoreBundle) : ℝ :=
  let w := sourceWeights hasSearch hasAI
  let contentNorm := min 1 b.contentScore
  let collabNorm := if b.collabScore > 0 then min 1 (b.collabScore / 5) else 0
  let searchNorm := min 1 b.searchScore
  let aiNorm := min 1 b.aiScore
  let adjustedContent : ℝ := (w.content : ℝ)
    + (if collabNorm = 0 then (w.collab : ℝ) else 0)
    + (if searchNorm = 0 then (w.searchW : ℝ) else 0)
    + (if aiNorm = 0 then (w.ai : ℝ) else 0)
  let adjustedCollab : ℝ := if collabNorm = 0 then 0 else (w.collab : ℝ)
  let adjustedSearch : ℝ := if searchNorm = 0 then 0 else (w.searchW : ℝ)
  let adjustedAi : ℝ := if aiNorm = 0 then 0 else (w.ai : ℝ)
  let weightSum := adjustedContent + adjustedCollab + adjustedSearch + adjustedAi
  let normContent := if weightSum > 0 then adjustedContent / weightSum else adjustedContent
  let normCollab := if weightSum > 0 then adjustedCollab / weightSum else adjustedCollab
  let normSearch := if weightSum > 0 then adjustedSearch / weightSum else adjustedSearch
  let normAi := if weightSum > 0 then adjustedAi / weightSum else adjustedAi
  contentNorm * normContent + collabNorm * normCollab
    + searchNorm * normSearch + aiNorm * normAi

/-- Create-if-absent then update one field of the per-restaurant bundle,
embedding the `if rest_id not in restaurant_scores` initialisation followed
by a field assignment. -/
def setBundle (rid : Int) (f : ScoreBundle → ScoreBundle) :
    List (Int × ScoreBundle) → List (Int × ScoreBundle)
  | [] => [(rid, f {})]
  | p :: t => if p.1 = rid then (p.1, f p.2) :: t else p :: setBundle rid f t

/-- Last-wins insertion into `restaurant_data`. -/
def setData (rid : Int) (r : Restaurant) :
    List (Int × Restaurant) → List (Int × Restaurant)
  | [] => [(rid, r)]
  | p :: t => if p.1 = rid then (p.1, r) :: t else p :: setData rid r t

/-- Embeds `_combine_recommendations`: build the insertion-ordered
per-restaurant score dict from the four result lists (search scores stored
as `min(1, s*1.2)`, ai scores as `min(1, s*1.1)`), compute each final
weighted score and sort all restaurants descending (no truncation here). -/
noncomputable def combineRecommendations
    (contentResults collabResults searchResults aiResults : List (Restaurant × ℝ)) :
    List (Restaurant × ℝ × ScoreBundle) :=
  let hasSearch := !searchResults.isEmpty
  let hasAI := !aiResults.isEmpty
  let acc0 : List (Int × Restaurant) × List (Int × ScoreBundle) := ([], [])
  let acc1 := contentResults.foldl (fun acc p =>
    (setData p.1.id p.1 acc.1,
     setBundle p.1.id (fun b => { b with contentScore := p.2 }) acc.2)) acc0
  let acc2 := collabResults.foldl (fun acc p =>
    (setData p.1.id p.1 acc.1,
     setBundle p.1.id (fun b => { b with collabScore := p.2 }) acc.2)) acc1
  let acc3 := searchResults.foldl (fun acc p =>
    (setData p.1.id p.1 acc.1,
     setBundle p.1.id (fun b => { b with searchScore := min 1 (p.2 * (6/5)) }) acc.2)) acc2
  let acc4 := aiResults.foldl (fun acc p =>
    (setData p.1.id p.1 acc.1,
     setBundle p.1.id (fun b => { b with aiScore := min 1 (p.2 * (11/10)) }) acc.2)) acc3
  let finalResults := acc4.2.filterMap (fun e =>
    match acc4.1.find? (fun d => d.1 = e.1) with
    | some d => some (d.2, combineFinalScore hasSearch hasAI e.2, e.2)
    | none => none)
  sortDescBy (fun x => x.2.1) finalResults

/-- External deterministic collaborators of the enhanced engine: the two
TF-IDF vectorizers (content and search), fitted as functions of the current
catalog, and the AI providers with the JSON parser. -/
structure Externals where
  contentVecs : List Restaurant → Option (List (List ℚ))
  contentQueryVec : List Restaurant → String → List ℚ
  searchVecs : List Restaurant → Option (List (List ℚ))
  searchQueryVec : List Restaurant → String → List ℚ
  providers : Providers

/-- Mutable state shared across requests: the merged in-memory catalog
(`base_engine.restaurants`), the fetcher's base snapshot and fetched store,
and the interaction log. -/
structure EngineState where
  restaurants : List Restaurant
  baseRestaurants : List Restaurant
  fetched : List Restaurant
  log : List Interaction

/-- Embeds `_merge_ai_restaurants`: when the fetched store is non-empty,
extend the in-memory catalog with every fetched record (feature vectors and
the search index are rebuilt from the extended catalog, which the embedding
realises by deriving vectors functionally from the current catalog). -/
def mergeAiRestaurants (st : EngineState) : EngineState :=
  if st.fetched.isEmpty then st
  else { st with restaurants := st.restaurants ++ st.fetched }

/-- Python truthiness of an optional string. -/
def optTruthy : Option String → Bool
  | some s => s ≠ ""
  | none => false

/-- Recommendation request shape consumed by
`EnhancedRecommendationEngine.recommend`. -/
structure Request where
  mood : String
  occasion : String
  cuisine : String
  dietaryPreference : String
  time : String
  location : Option String := none
  additionalNotes : Option String := none
  userId : Option String := none
  searchQuery : Option String := none
  useAiFetch : Bool := true
  deriving DecidableEq, Repr

/-- Embeds `EnhancedRecommendationEngine.recommend`: search the query and
override stated preferences with query-extracted ones, run the content
scorer, the collaborative filter when a user id is present, the enrichment
gateway when AI fetch is enabled and a query exists (merging any fetched
records into the catalog), then combine all sources and return the top 9
with the updated engine state. -/
noncomputable def recommend (ext : Externals) (req : Request) (st : EngineState) :
    List (Restaurant × ℝ × ScoreBundle) × EngineState :=
  let query := req.searchQuery.getD ""
  let searchResults :=
    if optTruthy req.searchQuery then
      SearchMatcher.search st.restaurants (ext.searchVecs st.restaurants)
        (ext.searchQueryVec st.restaurants (lowerStr query)) query 9 (1/10)
    else []
  let overridden :=
    if optTruthy req.searchQuery then
      let qp := matchQueryToPreferences query (some req.mood) (some req.occasion)
        (some req.cuisine)
      (if optTruthy qp.mood then qp.mood.getD "" else req.mood,
       if optTruthy qp.occasion then qp.occasion.getD "" else req.occasion,
       if optTruthy qp.cuisine then qp.cuisine.getD "" else req.cuisine,
       if optTruthy qp.dietary then qp.dietary.getD "" else req.dietaryPreference)
    else (req.mood, req.occasion, req.cuisine, req.dietaryPreference)
  let prefs : Preferences :=
    { mood := overridden.1, occasion := overridden.2.1,
      cuisine := overridden.2.2.1, dietaryPreference := overridden.2.2.2,
      time := req.time, location := req.location,
      additionalNotes := req.additionalNotes }
  let userText := String.intercalate " "
    [prefs.cuisine, prefs.dietaryPreference, prefs.mood, prefs.occasion]
  let contentResults := contentRecommend st.restaurants
    (ext.contentVecs st.restaurants) (ext.contentQueryVec st.restaurants userText)
    prefs
  let collabResults :=
    match req.userId with
    | some uid =>
      if uid ≠ "" then getCollaborativeRecommendations st.log uid st.restaurants 9
      else []
    | none => []
  let shouldFetchAi := req.useAiFetch && optTruthy req.searchQuery
  let fetchOutcome :=
    if shouldFetchAi then
      let fetcherState : FetcherState :=
        { baseRestaurants := st.baseRestaurants, fetched := st.fetched }
      let queryArg :=
        if optTruthy req.searchQuery then query
        else prefs.cuisine ++ " " ++ prefs.occasion ++ " " ++ prefs.mood
      searchFetchedRestaurants ext.providers fetcherState queryArg req.location
        (some prefs) true
    else ([], { baseRestaurants := st.baseRestaurants, fetched := st.fetched })
  let aiData := fetchOutcome.1
  let st2 : EngineState := { st with fetched := fetchOutcome.2.fetched }
  let aiResults := aiData.map (fun aiRest =>
    let matchScore : ℚ := (1/2)
      + (if (lowerStr aiRest.cuisine) = (lowerStr prefs.cuisine) ∨
            (lowerStr prefs.cuisine) = "any" then (1/5) else 0)
      + (if dictGet aiRest.moodScores (lowerStr prefs.mood) 0 > (7/10) then (1/5) else 0)
      + (if dictGet aiRest.occasionScores (lowerStr prefs.occasion) 0 > (7/10)
          then (1/10) else 0)
    (aiRest, min 1 ((matchScore : ℝ))))
  let st3 := if aiData.isEmpty then st2 else mergeAiRestaurants st2
  let combined := combineRecommendations contentResults collabResults
    searchResults aiResults
  (combined.take 9, st3)

end EnhancedEngine

section SpecSideDefinitions

open RecommendationEngine

/-- Dietary-compatibility rule as the specification words it: for
`non-vegetarian` accept iff the restaurant lists `non-vegetarian` or does
not list `vegetarian`; otherwise require case-insensitive membership of
the preference in the dietary-options set. -/
def specDietaryCompatible (r : Restaurant) (pref : String) : Prop :=
  let opts := r.dietaryOptions.map lowerStr
  if (lowerStr pref) = "non-vegetarian" then
    "non-vegetarian" ∈ opts ∨ "vegetarian" ∉ opts
  else (lowerStr pref) ∈ opts

/-- Sum of the weights of the active rows of a (flag, matched, weight)
table. -/
def tableTotalWeight : List (Bool × Bool × ℚ) → ℚ
  | [] => 0
  | e :: t => (if e.1 then e.2.2 else 0) + tableTotalWeight t

/-- Sum of the weights of the active rows whose heuristic matched. -/
def tableMatchedWeight : List (Bool × Bool × ℚ) → ℚ
  | [] => 0
  | e :: t => (if e.1 && e.2.1 then e.2.2 else 0) + tableMatchedWeight t

/-- Per-flag (active, matched) table of the notes heuristics exactly as the
code tests them; the weight column is supplied by the caller. The `fast`
flag has no restaurant heuristic anywhere in code or spec, so its matched
column is `false` (no statement below depends on it: counterexamples and
witnesses keep `fast` inactive). -/
def notesFlagRows (r : Restaurant) (p : RecommendationEngine.NotesPreferences) :
    List (Bool × Bool) :=
  let ambiance := (lowerStr r.ambiance)
  let priceRange := (lowerStr r.priceRange)
  [(p.spicy, ["indian", "mexican", "thai", "chinese"].contains (lowerStr r.cuisine)),
   (p.quiet, anySubstrOf ["quiet", "peaceful", "serene", "calm"] ambiance),
   (p.romantic, anySubstrOf ["romantic", "intimate", "cozy", "elegant"] ambiance),
   (p.familyFriendly, anySubstrOf ["family", "casual", "friendly"] ambiance),
   (p.healthy, anySubstrOf ["healthy", "fresh", "light"] ambiance),
   (p.fast, false),
   (p.affordable, priceRange = "affordable"),
   (p.upscale, ["expensive", "moderate"].contains priceRange)]

/-- Notes score as claim C4 words it: accumulated matched weight over total
weight with every active flag contributing the same weight (so the ratio is
matched count over active count), 1.0 when no flags are active. -/
def equalWeightNotesScore (r : Restaurant)
    (np : Option RecommendationEngine.NotesPreferences) : ℚ :=
  match np with
  | none => 1
  | some p =>
    let rows := notesFlagRows r p
    let active := (rows.filter (fun e => e.1)).length
    if active = 0 then 1
    else ((rows.filter (fun e => e.1 && e.2)).length : ℚ) / (active : ℚ)

/-- Notes score as the code actually weights it: spicy 0.3, the five
ambiance/price flags 0.2 each, `fast` carrying no weight at all; 1.0 when
the total weight is zero. -/
def weightedNotesScore (r : Restaurant)
    (np : Option RecommendationEngine.NotesPreferences) : ℚ :=
  match np with
  | none => 1
  | some p =>
    let rows := notesFlagRows r p
    let table : List (Bool × Bool × ℚ) :=
      [(p.spicy, (rows.getD 0 (false, false)).2, 3/10),
       (p.quiet, (rows.getD 1 (false, false)).2, 1/5),
       (p.romantic, (rows.getD 2 (false, false)).2, 1/5),
       (p.familyFriendly, (rows.getD 3 (false, false)).2, 1/5),
       (p.healthy, (rows.getD 4 (false, false)).2, 1/5),
       (p.affordable, (rows.getD 6 (false, false)).2, 1/5),
       (p.upscale, (rows.getD 7 (false, false)).2, 1/5)]
    let total := tableTotalWeight table
    if total > 0 then tableMatchedWeight table / total else 1

end SpecSideDefinitions

section SampleData

/-- Restaurant offering only vegetarian options (spec example). -/
def vegOnlyRestaurant : Restaurant :=
  { id := 1, dietaryOptions := ["vegetarian"] }

/-- Restaurant offering non-vegetarian options (spec example). -/
def nonVegRestaurant : Restaurant :=
  { id := 2, dietaryOptions := ["non-vegetarian"] }

/-- Indian restaurant with no ambiance text, used in the notes-score
counterexample. -/
def indianRestaurant : Restaurant :=
  { id := 4, cuisine := "indian", dietaryOptions := ["vegetarian"] }

end SampleData

/-- Claim C3: the dietary gate of the content scorer excludes a restaurant
from scoring exactly when it fails dietary compatibility, compatibility
being the spec's rule (`non-vegetarian` accepted iff `non-vegetarian`
listed or `vegetarian` not listed, otherwise case-insensitive membership);
in particular a `{vegetarian}` restaurant is excluded for preference
`non-vegetarian` and a `{non-vegetarian}` restaurant is included. -/
theorem dietary_gate_correct :
    (∀ (catalog : List Restaurant) (restVecs : Option (List (List ℚ)))
      (userVec : List ℚ) (prefs : Preferences) (r : Restaurant),
      (∃ s, (r, s) ∈ RecommendationEngine.scoredRestaurants catalog restVecs userVec prefs)
        ↔ r ∈ catalog ∧
          RecommendationEngine.checkDietaryCompatibility r prefs.dietaryPreference = true)
    ∧ (∀ (r : Restaurant) (pref : String),
        RecommendationEngine.checkDietaryCompatibility r pref = true ↔
          specDietaryCompatible r pref)
    ∧ RecommendationEngine.checkDietaryCompatibility vegOnlyRestaurant "non-vegetarian" = false
    ∧ RecommendationEngine.checkDietaryCompatibility nonVegRestaurant "non-vegetarian" = true := by
  refine ⟨?_, ?_, by decide, by decide⟩
  · intro catalog restVecs userVec prefs r
    constructor
    · rintro ⟨s, hs⟩
      simp only [RecommendationEngine.scoredRestaurants, List.mem_map, List.mem_filter] at hs
      rcases hs with ⟨r', ⟨hr', hgate⟩, heq⟩
      cases heq
      exact ⟨hr', hgate⟩
    · rintro ⟨hr, hgate⟩
      refine ⟨RecommendationEngine.finalContentScore catalog restVecs userVec prefs
        (RecommendationEngine.processAdditionalNotes prefs.additionalNotes) r, ?_⟩
      simp only [RecommendationEngine.scoredRestaurants, List.mem_map, List.mem_filter]
      exact ⟨r, ⟨hr, hgate⟩, rfl⟩
  · intro r pref
    simp only [RecommendationEngine.checkDietaryCompatibility, specDietaryCompatible]
    by_cases h : (lowerStr pref) = "non-vegetarian" <;>
      simp [h]

/-- Witness for C3: the non-vegetarian sample restaurant passes the gate
and is therefore scored. -/
theorem dietary_gate_correct_witness :
    ∃ s, (nonVegRestaurant, s) ∈ RecommendationEngine.scoredRestaurants
      [nonVegRestaurant] none []
      { mood := "happy", occasion := "celebration", cuisine := "any",
        dietaryPreference := "non-vegetarian", time := "dinner" } :=
  (dietary_gate_correct.1 [nonVegRestaurant] none []
    { mood := "happy", occasion := "celebration", cuisine := "any",
      dietaryPreference := "non-vegetarian", time := "dinner" }
    nonVegRestaurant).mpr ⟨by decide, by decide⟩

/-- Counterexample to claim C4 as stated: with notes "spicy and quiet"
against an Indian restaurant with empty ambiance, the spicy flag matches
(weight 0.3) and the quiet flag does not (weight 0.2), so the code returns
0.3/0.5 = 3/5, while equal per-flag weights would give 1/2. -/
theorem notes_score_not_equal_weight :
    RecommendationEngine.calculateNotesScore indianRestaurant
      (RecommendationEngine.processAdditionalNotes (some "spicy and quiet")) = 3/5
    ∧ equalWeightNotesScore indianRestaurant
      (RecommendationEngine.processAdditionalNotes (some "spicy and quiet")) = 1/2
    ∧ RecommendationEngine.calculateNotesScore indianRestaurant
        (RecommendationEngine.processAdditionalNotes (some "spicy and quiet")) ≠
      equalWeightNotesScore indianRestaurant
        (RecommendationEngine.processAdditionalNotes (some "spicy and quiet")) := by
  have h1 : RecommendationEngine.processAdditionalNotes (some "spicy and quiet") =
      some { spicy := true, quiet := true } := by decide
  have hcuisine : (["indian", "mexican", "thai", "chinese"].contains
      (lowerStr indianRestaurant.cuisine)) = true := by decide
  have hquiet : (anySubstrOf ["quiet", "peaceful", "serene", "calm"]
      (lowerStr indianRestaurant.ambiance)) = false := by decide
  have e1 : RecommendationEngine.calculateNotesScore indianRestaurant
      (RecommendationEngine.processAdditionalNotes (some "spicy and quiet")) = 3/5 := by
    rw [h1]
    simp only [RecommendationEngine.calculateNotesScore,
      RecommendationEngine.notesScoreAccum, hcuisine, hquiet]
    norm_num
  have e2 : equalWeightNotesScore indianRestaurant
      (RecommendationEngine.processAdditionalNotes (some "spicy and quiet")) = 1/2 := by
    rw [h1]
    simp only [equalWeightNotesScore, notesFlagRows, hcuisine, hquiet]
    norm_num
  exact ⟨e1, e2, by rw [e1, e2]; norm_num⟩

/-- Congruence for the guarded quotient shared by the notes-score
formulations. -/
theorem ite_div_congr {a b c d : ℚ} (hac : a = c) (hbd : b = d) :
    (if b > 0 then a / b else 1) = (if d > 0 then c / d else 1) := by
  rw [hac, hbd]

/-- Claim C4 (amended): for every restaurant and notes text, the notes
score equals accumulated matched weight over total weight where spicy
carries weight 0.3, the quiet/romantic/family-friendly/healthy/affordable/
upscale flags carry 0.2 each and the `fast` flag carries no weight, with
score 1.0 when the total weight is zero (no flags active, or only
`fast`). -/
theorem notes_score_weighted (r : Restaurant) (notes : Option String) :
    RecommendationEngine.calculateNotesScore r
        (RecommendationEngine.processAdditionalNotes notes)
      = weightedNotesScore r (RecommendationEngine.processAdditionalNotes notes) := by
  rcases RecommendationEngine.processAdditionalNotes notes with _ | p
  · rfl
  · have hmt : ∀ (a m : Bool) (w : ℚ),
        (if (a && m) = true then w else 0)
          = if a = true then (if m = true then w else 0) else 0 := by
      intro a m w
      cases a <;> cases m <;> simp
    simp only [RecommendationEngine.calculateNotesScore,
      RecommendationEngine.notesScoreAccum, weightedNotesScore,
      notesFlagRows, tableTotalWeight, tableMatchedWeight,
      List.getD_cons_zero, List.getD_cons_succ, hmt, decide_eq_true_eq]
    exact ite_div_congr (by ring) (by ring)

/-- Candidate record as the AI would return it (no id yet). -/
def pastaPalaceCandidate : Restaurant :=
  { id := 0, restaurantName := "Pasta Palace", cuisine := "italian",
    address := "12 Main Street" }

/-- Provider configuration whose AI response parses to two candidates with
identical names. -/
def duplicatePairProviders : AIDataFetcher.Providers :=
  { geminiAvailable := true, openaiAvailable := false,
    respondGemini := fun _ _ _ => .ok "[]",
    respondOpenai := fun _ _ _ => .error "unavailable",
    parseJson := fun _ => some (.inl [pastaPalaceCandidate, pastaPalaceCandidate]) }

/-- Claim C5 fails on the code: duplicate detection runs only against the
records existing before the fetch, so a batch containing two candidates
with identical normalized names persists both. Starting from an empty base
catalog and empty fetched store, the fetch stores two records whose
normalized names coincide, even though `_is_duplicate` itself would have
flagged the pair. -/
theorem duplicate_candidates_both_persisted :
    (AIDataFetcher.fetchRestaurantData duplicatePairProviders
        { baseRestaurants := [], fetched := [] } "pasta" none 5 none).2.fetched.length = 2
    ∧ ((AIDataFetcher.fetchRestaurantData duplicatePairProviders
        { baseRestaurants := [], fetched := [] } "pasta" none 5 none).2.fetched.map
          (fun r => AIDataFetcher.normalizeText r.restaurantName))
        = ["pasta palace", "pasta palace"]
    ∧ AIDataFetcher.isDuplicate pastaPalaceCandidate [pastaPalaceCandidate] = true :=
  ⟨by decide, by decide, by decide⟩

/-- Claim C9: every provider exception and every JSON-parse failure inside
the gateway yields the empty candidate list, the fetch then leaves the
store untouched, and `search_fetched_restaurants` still returns only
already-stored records — no exception reaches its caller. -/
theorem ai_provider_errors_contained :
    (∀ (available : Bool) (respond : AIDataFetcher.ProviderRespond)
        (parse : AIDataFetcher.JsonParse) (q : String) (loc : Option String)
        (n : Nat) (e : String), respond q loc n = .error e →
        AIDataFetcher.fetchWithModel available respond parse q loc n = [])
    ∧ (∀ (respond : AIDataFetcher.ProviderRespond) (parse : AIDataFetcher.JsonParse)
        (q : String) (loc : Option String) (n : Nat) (raw : String),
        respond q loc n = .ok raw →
        parse (AIDataFetcher.stripCodeFences raw) = none →
        AIDataFetcher.fetchWithModel true respond parse q loc n = [])
    ∧ (∀ (pr : AIDataFetcher.Providers) (st : AIDataFetcher.FetcherState)
        (q : String) (loc : Option String) (n : Nat) (up : Option Preferences)
        (e : String),
        pr.geminiAvailable = true →
        pr.respondGemini (AIDataFetcher.enhanceQuery q up) loc n = .error e →
        AIDataFetcher.fetchRestaurantData pr st q loc n up = ([], st))
    ∧ (∀ (pr : AIDataFetcher.Providers) (st : AIDataFetcher.FetcherState)
        (q : String) (loc : Option String) (up : Option Preferences)
        (e : String) (fetchIfNotFound : Bool),
        pr.geminiAvailable = true →
        pr.respondGemini (AIDataFetcher.enhanceQuery q up) loc 5 = .error e →
        (AIDataFetcher.searchFetchedRestaurants pr st q loc up fetchIfNotFound).2 = st
          ∧ ∀ r ∈ (AIDataFetcher.searchFetchedRestaurants pr st q loc up
              fetchIfNotFound).1, r ∈ st.fetched) := by
  have hmodel : ∀ (available : Bool) (respond : AIDataFetcher.ProviderRespond)
      (parse : AIDataFetcher.JsonParse) (q : String) (loc : Option String)
      (n : Nat) (e : String), respond q loc n = .error e →
      AIDataFetcher.fetchWithModel available respond parse q loc n = [] := by
    intro available respond parse q loc n e h
    cases available <;> simp [AIDataFetcher.fetchWithModel, h]
  have hfetch : ∀ (pr : AIDataFetcher.Providers) (st : AIDataFetcher.FetcherState)
      (q : String) (loc : Option String) (n : Nat) (up : Option Preferences)
      (e : String),
      pr.geminiAvailable = true →
      pr.respondGemini (AIDataFetcher.enhanceQuery q up) loc n = .error e →
      AIDataFetcher.fetchRestaurantData pr st q loc n up = ([], st) := by
    intro pr st q loc n up e hg herr
    simp [AIDataFetcher.fetchRestaurantData, hg,
      hmodel true pr.respondGemini pr.parseJson _ loc n e herr]
  refine ⟨hmodel, ?_, hfetch, ?_⟩
  · intro respond parse q loc n raw hok hparse
    simp [AIDataFetcher.fetchWithModel, hok, hparse]
  · intro pr st q loc up e fetchIfNotFound hg herr
    unfold AIDataFetcher.searchFetchedRestaurants
    by_cases hcond : ((st.fetched.filter (fun r =>
        let restaurantText := lowerStr (String.intercalate " "
          [r.restaurantName, r.cuisine, r.location, r.ambiance])
        substrOf (lowerStr q) restaurantText ||
          (splitWs (lowerStr q)).any
            (fun word => word.length > 2 && substrOf word restaurantText))).isEmpty
        && fetchIfNotFound && (pr.geminiAvailable || pr.openaiAvailable)) = true
    · rw [if_pos hcond, hfetch pr st q loc 5 up e hg herr]
      exact ⟨rfl, by intro r hr; simp at hr⟩
    · rw [if_neg hcond]
      exact ⟨rfl, fun r hr => (List.mem_filter.mp hr).1⟩

/-- Provider configuration whose AI calls always raise. -/
def failingProviders : AIDataFetcher.Providers :=
  { geminiAvailable := true, openaiAvailable := false,
    respondGemini := fun _ _ _ => .error "network down",
    respondOpenai := fun _ _ _ => .error "network down",
    parseJson := fun _ => none }

/-- Witness for C9: a concrete failing provider yields no candidates, an
unchanged store, and a loss-free `search_fetched_restaurants` call. -/
theorem ai_provider_errors_contained_witness :
    AIDataFetcher.fetchWithModel true failingProviders.respondGemini
      failingProviders.parseJson "tacos" none 5 = []
    ∧ AIDataFetcher.fetchRestaurantData failingProviders
        { baseRestaurants := [], fetched := [] } "tacos" none 5 none
        = ([], { baseRestaurants := [], fetched := [] })
    ∧ (AIDataFetcher.searchFetchedRestaurants failingProviders
        { baseRestaurants := [], fetched := [] } "tacos" none none true).2
        = { baseRestaurants := [], fetched := [] } :=
  ⟨ai_provider_errors_contained.1 true _ _ "tacos" none 5 "network down" rfl,
   ai_provider_errors_contained.2.2.1 failingProviders _ "tacos" none 5 none
     "network down" rfl rfl,
   (ai_provider_errors_contained.2.2.2 failingProviders _ "tacos" none none
     "network down" true rfl rfl).1⟩

theorem dotQ_comm (u v : List ℚ) : dotQ u v = dotQ v u := by
  unfold dotQ
  rw [min_comm]
  exact Finset.sum_congr rfl (fun i _ => mul_comm _ _)

theorem cosineSim_comm (u v : List ℚ) : cosineSim u v = cosineSim v u := by
  unfold cosineSim
  rw [dotQ_comm u v, mul_comm]

namespace CollaborativeFiltering

theorem validInteractions_append_falsy (log : List Interaction) (i : Interaction)
    (h : i.userId = "" ∨ i.restaurantId = 0) :
    validInteractions (log ++ [i]) = validInteractions log := by
  unfold validInteractions
  rw [List.filter_append]
  have hi : List.filter (fun j => j.userId ≠ "" && j.restaurantId ≠ 0) [i] = [] := by
    rcases h with h | h <;> simp [List.filter, h]
  rw [hi, List.append_nil]

end CollaborativeFiltering

/-- Claim C6: the stored similarity mapping is symmetric for every
interaction log (hence at construction and after every `add_interaction`,
both of which store `simMatrix` of the then-current log), the diagonal is
absent, and an entry exists only when at least two distinct users have
valid interactions. -/
theorem similarity_matrix_invariants :
    (∀ (log : List CollaborativeFiltering.Interaction) (u v : String),
      CollaborativeFiltering.simMatrix log u v = CollaborativeFiltering.simMatrix log v u)
    ∧ (∀ (log : List CollaborativeFiltering.Interaction) (u : String),
        CollaborativeFiltering.simMatrix log u u = none)
    ∧ (∀ (log : List CollaborativeFiltering.Interaction) (u v : String),
        CollaborativeFiltering.simMatrix log u v ≠ none →
          2 ≤ (CollaborativeFiltering.userIds log).length) := by
  refine ⟨?_, ?_, ?_⟩
  · intro log u v
    unfold CollaborativeFiltering.simMatrix
    by_cases h : 2 ≤ (CollaborativeFiltering.userIds log).length ∧
        u ∈ CollaborativeFiltering.userIds log ∧
        v ∈ CollaborativeFiltering.userIds log ∧ u ≠ v
    · rw [if_pos h, if_pos ⟨h.1, h.2.2.1, h.2.1, Ne.symm h.2.2.2⟩]
      exact congrArg some (cosineSim_comm _ _)
    · rw [if_neg h, if_neg (fun hc => h ⟨hc.1, hc.2.2.1, hc.2.1, Ne.symm hc.2.2.2⟩)]
  · intro log u
    unfold CollaborativeFiltering.simMatrix
    rw [if_neg]
    rintro ⟨-, -, -, hne⟩
    exact hne rfl
  · intro log u v h
    unfold CollaborativeFiltering.simMatrix at h
    by_cases hc : 2 ≤ (CollaborativeFiltering.userIds log).length ∧
        u ∈ CollaborativeFiltering.userIds log ∧
        v ∈ CollaborativeFiltering.userIds log ∧ u ≠ v
    · exact hc.1
    · rw [if_neg hc] at h
      exact absurd rfl h

/-- Interaction of the spec scenario: user a rated restaurant 10 with 5. -/
def interA : CollaborativeFiltering.Interaction :=
  { userId := "a", restaurantId := 10, timestamp := "t1", rating := some 5 }

/-- User b rated restaurant 10 with 5. -/
def interB1 : CollaborativeFiltering.Interaction :=
  { userId := "b", restaurantId := 10, timestamp := "t2", rating := some 5 }

/-- User b rated restaurant 20 with 4. -/
def interB2 : CollaborativeFiltering.Interaction :=
  { userId := "b", restaurantId := 20, timestamp := "t3", rating := some 4 }

/-- Interaction log of the spec scenario. -/
def scenarioLog : List CollaborativeFiltering.Interaction :=
  [interA, interB1, interB2]

/-- Witness for C6: the scenario log has an existing off-diagonal entry, so
the matrix is built from at least two distinct users. -/
theorem similarity_matrix_invariants_witness :
    2 ≤ (CollaborativeFiltering.userIds scenarioLog).length := by
  refine similarity_matrix_invariants.2.2 scenarioLog "a" "b" ?_
  have hcond : 2 ≤ (CollaborativeFiltering.userIds scenarioLog).length ∧
      "a" ∈ CollaborativeFiltering.userIds scenarioLog ∧
      "b" ∈ CollaborativeFiltering.userIds scenarioLog ∧ "a" ≠ "b" := by decide
  unfold CollaborativeFiltering.simMatrix
  rw [if_pos hcond]
  simp

namespace CollaborativeFiltering

theorem userIds_append_falsy (log : List Interaction) (i : Interaction)
    (h : i.userId = "" ∨ i.restaurantId = 0) :
    userIds (log ++ [i]) = userIds log := by
  unfold userIds
  rw [validInteractions_append_falsy log i h]

theorem restaurantIds_append_falsy (log : List Interaction) (i : Interaction)
    (h : i.userId = "" ∨ i.restaurantId = 0) :
    restaurantIds (log ++ [i]) = restaurantIds log := by
  unfold restaurantIds
  rw [validInteractions_append_falsy log i h]

theorem entryScore_append_falsy (log : List Interaction) (i : Interaction)
    (h : i.userId = "" ∨ i.restaurantId = 0) :
    entryScore (log ++ [i]) = entryScore log := by
  funext u r
  unfold entryScore
  rw [validInteractions_append_falsy log i h]

theorem userVector_append_falsy (log : List Interaction) (i : Interaction)
    (h : i.userId = "" ∨ i.restaurantId = 0) :
    userVector (log ++ [i]) = userVector log := by
  funext u
  unfold userVector
  rw [restaurantIds_append_falsy log i h, entryScore_append_falsy log i h]

theorem similarityValue_append_falsy (log : List Interaction) (i : Interaction)
    (h : i.userId = "" ∨ i.restaurantId = 0) :
    similarityValue (log ++ [i]) = similarityValue log := by
  funext u v
  unfold similarityValue
  rw [userVector_append_falsy log i h]

theorem getSimilarUsers_append_falsy (log : List Interaction) (i : Interaction)
    (h : i.userId = "" ∨ i.restaurantId = 0) :
    getSimilarUsers (log ++ [i]) = getSimilarUsers log := by
  funext u topK
  unfold getSimilarUsers
  rw [userIds_append_falsy log i h, similarityValue_append_falsy log i h]

theorem touchedRestaurants_append_falsy (log : List Interaction) (i : Interaction)
    (h : i.userId = "" ∨ i.restaurantId = 0) :
    touchedRestaurants (log ++ [i]) = touchedRestaurants log := by
  funext u
  unfold touchedRestaurants
  rw [validInteractions_append_falsy log i h]

theorem collaborativeScores_append_falsy (log : List Interaction) (i : Interaction)
    (h : i.userId = "" ∨ i.restaurantId = 0) :
    collaborativeScores (log ++ [i]) = collaborativeScores log := by
  funext u
  unfold collaborativeScores
  rw [getSimilarUsers_append_falsy log i h, touchedRestaurants_append_falsy log i h]

end CollaborativeFiltering

/-- Claim C10: both the similarity-matrix rebuild and the
collaborative-recommendation scan skip interactions with a falsy user id or
restaurant id, so appending such an interaction (in particular restaurant
id 0 or the empty user id) changes neither the similarity matrix nor the
collaborative recommendations. -/
theorem falsy_interaction_ignored
    (log : List CollaborativeFiltering.Interaction)
    (i : CollaborativeFiltering.Interaction)
    (h : i.userId = "" ∨ i.restaurantId = 0) :
    (∀ u v, CollaborativeFiltering.simMatrix (log ++ [i]) u v =
      CollaborativeFiltering.simMatrix log u v)
    ∧ (∀ (u : String) (restaurants : List Restaurant) (topK : Nat),
        CollaborativeFiltering.getCollaborativeRecommendations (log ++ [i]) u
          restaurants topK =
        CollaborativeFiltering.getCollaborativeRecommendations log u
          restaurants topK) := by
  constructor
  · intro u v
    unfold CollaborativeFiltering.simMatrix
    rw [CollaborativeFiltering.userIds_append_falsy log i h,
      CollaborativeFiltering.similarityValue_append_falsy log i h]
  · intro u restaurants topK
    unfold CollaborativeFiltering.getCollaborativeRecommendations
    rw [CollaborativeFiltering.userIds_append_falsy log i h,
      CollaborativeFiltering.getSimilarUsers_append_falsy log i h,
      CollaborativeFiltering.touchedRestaurants_append_falsy log i h,
      CollaborativeFiltering.collaborativeScores_append_falsy log i h]

/-- Interaction with a falsy (zero) restaurant id. -/
def zeroIdInteraction : CollaborativeFiltering.Interaction :=
  { userId := "c", restaurantId := 0, timestamp := "t4", rating := some 3 }

/-- Witness for C10: appending a zero-restaurant-id interaction to the
scenario log leaves the matrix entry and the recommendations for user a
unchanged. -/
theorem falsy_interaction_ignored_witness :
    CollaborativeFiltering.simMatrix (scenarioLog ++ [zeroIdInteraction]) "a" "b" =
      CollaborativeFiltering.simMatrix scenarioLog "a" "b"
    ∧ CollaborativeFiltering.getCollaborativeRecommendations
        (scenarioLog ++ [zeroIdInteraction]) "a" [] 9 =
      CollaborativeFiltering.getCollaborativeRecommendations scenarioLog "a" [] 9 :=
  ⟨(falsy_interaction_ignored scenarioLog zeroIdInteraction (Or.inr rfl)).1 "a" "b",
   (falsy_interaction_ignored scenarioLog zeroIdInteraction (Or.inr rfl)).2 "a" [] 9⟩

namespace EnhancedEngine

/-- Normalized content sub-score (`min(1.0, content_score)`). -/
noncomputable def contentNorm (b : ScoreBundle) : ℝ := min 1 b.contentScore

/-- Normalized collaborative sub-score (`min(1.0, collab/5)` when positive,
else 0). -/
noncomputable def collabNorm (b : ScoreBundle) : ℝ :=
  if b.collabScore > 0 then min 1 (b.collabScore / 5) else 0

/-- Normalized search sub-score. -/
noncomputable def searchNorm (b : ScoreBundle) : ℝ := min 1 b.searchScore

/-- Normalized ai sub-score. -/
noncomputable def aiNorm (b : ScoreBundle) : ℝ := min 1 b.aiScore

/-- Folded weights as claim C1 words them: the configured weight of each
zero collaborative/search/ai sub-score is added entirely onto the content
weight, a zero source keeps weight 0. -/
noncomputable def specFoldedWeights (hasSearch hasAI : Bool) (b : ScoreBundle) :
    ℝ × ℝ × ℝ × ℝ :=
  let w := sourceWeights hasSearch hasAI
  (((w.content : ℝ)
      + (if collabNorm b = 0 then (w.collab : ℝ) else 0)
      + (if searchNorm b = 0 then (w.searchW : ℝ) else 0)
      + (if aiNorm b = 0 then (w.ai : ℝ) else 0)),
   (if collabNorm b = 0 then 0 else (w.collab : ℝ)),
   (if searchNorm b = 0 then 0 else (w.searchW : ℝ)),
   (if aiNorm b = 0 then 0 else (w.ai : ℝ)))

/-- Total of the folded weights. -/
noncomputable def specWeightTotal (hasSearch hasAI : Bool) (b : ScoreBundle) : ℝ :=
  (specFoldedWeights hasSearch hasAI b).1 + (specFoldedWeights hasSearch hasAI b).2.1
    + (specFoldedWeights hasSearch hasAI b).2.2.1
    + (specFoldedWeights hasSearch hasAI b).2.2.2

/-- Combined score as claim C1 words it: the weighted sum of the normalized
sub-scores under the folded weights renormalized by their total. -/
noncomputable def specCombinedScore (hasSearch hasAI : Bool) (b : ScoreBundle) : ℝ :=
  contentNorm b * ((specFoldedWeights hasSearch hasAI b).1 / specWeightTotal hasSearch hasAI b)
    + collabNorm b * ((specFoldedWeights hasSearch hasAI b).2.1 / specWeightTotal hasSearch hasAI b)
    + searchNorm b * ((specFoldedWeights hasSearch hasAI b).2.2.1 / specWeightTotal hasSearch hasAI b)
    + aiNorm b * ((specFoldedWeights hasSearch hasAI b).2.2.2 / specWeightTotal hasSearch hasAI b)

theorem specWeightTotal_eq (hasSearch hasAI : Bool) (b : ScoreBundle) :
    specWeightTotal hasSearch hasAI b =
      (((sourceWeights hasSearch hasAI).content : ℝ)
        + ((sourceWeights hasSearch hasAI).collab : ℝ)
        + ((sourceWeights hasSearch hasAI).searchW : ℝ)
        + ((sourceWeights hasSearch hasAI).ai : ℝ)) := by
  unfold specWeightTotal specFoldedWeights
  split_ifs <;> ring

theorem specWeightTotal_pos (hasSearch hasAI : Bool) (b : ScoreBundle) :
    0 < specWeightTotal hasSearch hasAI b := by
  rw [specWeightTotal_eq]
  cases hasSearch <;> cases hasAI <;> simp [sourceWeights] <;> norm_num

end EnhancedEngine

/-- Claim C1: the hybrid combine step folds the configured weight of every
zero collaborative/search/ai sub-score (after normalization) entirely onto
the content weight, renormalizes the active weights to total 1, and takes
the weighted sum of the normalized sub-scores; in particular when the
collaborative and ai sub-scores are both zero the combined score is the
content/search blend with those two weights folded into content and the
effective weights summing to 1. -/
theorem combine_weight_redistribution (hasSearch hasAI : Bool)
    (b : EnhancedEngine.ScoreBundle) :
    EnhancedEngine.combineFinalScore hasSearch hasAI b
      = EnhancedEngine.specCombinedScore hasSearch hasAI b
    ∧ (EnhancedEngine.specFoldedWeights hasSearch hasAI b).1
          / EnhancedEngine.specWeightTotal hasSearch hasAI b
        + (EnhancedEngine.specFoldedWeights hasSearch hasAI b).2.1
          / EnhancedEngine.specWeightTotal hasSearch hasAI b
        + (EnhancedEngine.specFoldedWeights hasSearch hasAI b).2.2.1
          / EnhancedEngine.specWeightTotal hasSearch hasAI b
        + (EnhancedEngine.specFoldedWeights hasSearch hasAI b).2.2.2
          / EnhancedEngine.specWeightTotal hasSearch hasAI b = 1
    ∧ (EnhancedEngine.collabNorm b = 0 → EnhancedEngine.aiNorm b = 0 →
        EnhancedEngine.combineFinalScore hasSearch hasAI b
          = EnhancedEngine.contentNorm b *
              ((((EnhancedEngine.sourceWeights hasSearch hasAI).content : ℝ)
                  + ((EnhancedEngine.sourceWeights hasSearch hasAI).collab : ℝ)
                  + ((EnhancedEngine.sourceWeights hasSearch hasAI).ai : ℝ)
                  + (if EnhancedEngine.searchNorm b = 0 then
                      ((EnhancedEngine.sourceWeights hasSearch hasAI).searchW : ℝ) else 0))
                / EnhancedEngine.specWeightTotal hasSearch hasAI b)
            + EnhancedEngine.searchNorm b *
              ((if EnhancedEngine.searchNorm b = 0 then 0 else
                  ((EnhancedEngine.sourceWeights hasSearch hasAI).searchW : ℝ))
                / EnhancedEngine.specWeightTotal hasSearch hasAI b)
        ∧ ((((EnhancedEngine.sourceWeights hasSearch hasAI).content : ℝ)
              + ((EnhancedEngine.sourceWeights hasSearch hasAI).collab : ℝ)
              + ((EnhancedEngine.sourceWeights hasSearch hasAI).ai : ℝ)
              + (if EnhancedEngine.searchNorm b = 0 then
                  ((EnhancedEngine.sourceWeights hasSearch hasAI).searchW : ℝ) else 0))
            / EnhancedEngine.specWeightTotal hasSearch hasAI b
          + (if EnhancedEngine.searchNorm b = 0 then 0 else
              ((EnhancedEngine.sourceWeights hasSearch hasAI).searchW : ℝ))
            / EnhancedEngine.specWeightTotal hasSearch hasAI b = 1)) := by
  have hpos := EnhancedEngine.specWeightTotal_pos hasSearch hasAI b
  have h1 : EnhancedEngine.combineFinalScore hasSearch hasAI b
      = EnhancedEngine.specCombinedScore hasSearch hasAI b := by
    simp only [EnhancedEngine.combineFinalScore, EnhancedEngine.specCombinedScore,
      EnhancedEngine.specFoldedWeights, EnhancedEngine.specWeightTotal,
      EnhancedEngine.contentNorm, EnhancedEngine.collabNorm,
      EnhancedEngine.searchNorm, EnhancedEngine.aiNorm] at hpos ⊢
    simp only [if_pos hpos]
  have h2 : (EnhancedEngine.specFoldedWeights hasSearch hasAI b).1
          / EnhancedEngine.specWeightTotal hasSearch hasAI b
        + (EnhancedEngine.specFoldedWeights hasSearch hasAI b).2.1
          / EnhancedEngine.specWeightTotal hasSearch hasAI b
        + (EnhancedEngine.specFoldedWeights hasSearch hasAI b).2.2.1
          / EnhancedEngine.specWeightTotal hasSearch hasAI b
        + (EnhancedEngine.specFoldedWeights hasSearch hasAI b).2.2.2
          / EnhancedEngine.specWeightTotal hasSearch hasAI b = 1 := by
    rw [div_add_div_same, div_add_div_same, div_add_div_same]
    have hT : (EnhancedEngine.specFoldedWeights hasSearch hasAI b).1
        + (EnhancedEngine.specFoldedWeights hasSearch hasAI b).2.1
        + (EnhancedEngine.specFoldedWeights hasSearch hasAI b).2.2.1
        + (EnhancedEngine.specFoldedWeights hasSearch hasAI b).2.2.2
        = EnhancedEngine.specWeightTotal hasSearch hasAI b := rfl
    rw [hT]
    exact div_self (ne_of_gt hpos)
  refine ⟨h1, h2, ?_⟩
  intro hc ha
  constructor
  · rw [h1]
    simp only [EnhancedEngine.specCombinedScore, EnhancedEngine.specFoldedWeights,
      hc, ha]
    simp
    ring_nf
    simp
  · have h2' := h2
    simp only [EnhancedEngine.specFoldedWeights, hc, ha] at h2'
    simp at h2'
    ring_nf at h2' ⊢
    exact h2'

/-- Bundle with zero collaborative and ai sub-scores. -/
noncomputable def sampleBundle : EnhancedEngine.ScoreBundle :=
  { contentScore := 4/5, collabScore := 0, searchScore := 1/2, aiScore := 0 }

/-- Witness for C1: at a concrete bundle with zero collaborative and ai
sub-scores the combined score is the content/search blend with folded
weights summing to 1. -/
theorem combine_weight_redistribution_witness :
    EnhancedEngine.combineFinalScore true false sampleBundle
      = EnhancedEngine.contentNorm sampleBundle *
          ((((EnhancedEngine.sourceWeights true false).content : ℝ)
              + ((EnhancedEngine.sourceWeights true false).collab : ℝ)
              + ((EnhancedEngine.sourceWeights true false).ai : ℝ)
              + (if EnhancedEngine.searchNorm sampleBundle = 0 then
                  ((EnhancedEngine.sourceWeights true false).searchW : ℝ) else 0))
            / EnhancedEngine.specWeightTotal true false sampleBundle)
        + EnhancedEngine.searchNorm sampleBundle *
          ((if EnhancedEngine.searchNorm sampleBundle = 0 then 0 else
              ((EnhancedEngine.sourceWeights true false).searchW : ℝ))
            / EnhancedEngine.specWeightTotal true false sampleBundle)
    ∧ ((((EnhancedEngine.sourceWeights true false).content : ℝ)
          + ((EnhancedEngine.sourceWeights true false).collab : ℝ)
          + ((EnhancedEngine.sourceWeights true false).ai : ℝ)
          + (if EnhancedEngine.searchNorm sampleBundle = 0 then
              ((EnhancedEngine.sourceWeights true false).searchW : ℝ) else 0))
        / EnhancedEngine.specWeightTotal true false sampleBundle
      + (if EnhancedEngine.searchNorm sampleBundle = 0 then 0 else
          ((EnhancedEngine.sourceWeights true false).searchW : ℝ))
        / EnhancedEngine.specWeightTotal true false sampleBundle = 1) :=
  (combine_weight_redistribution true false sampleBundle).2.2
    (by simp [EnhancedEngine.collabNorm, sampleBundle])
    (by simp [EnhancedEngine.aiNorm, sampleBundle])

theorem cosineSim_le_one (u v : List ℚ) : cosineSim u v ≤ 1 := by
  unfold cosineSim
  have hB : (0:ℝ) ≤ Real.sqrt ((dotQ u u : ℝ)) := Real.sqrt_nonneg _
  have hC : (0:ℝ) ≤ Real.sqrt ((dotQ v v : ℝ)) := Real.sqrt_nonneg _
  by_cases hz : Real.sqrt ((dotQ u u : ℝ)) * Real.sqrt ((dotQ v v : ℝ)) = 0
  · rw [hz, div_zero]
    exact zero_le_one
  · have hpos : 0 < Real.sqrt ((dotQ u u : ℝ)) * Real.sqrt ((dotQ v v : ℝ)) :=
      lt_of_le_of_ne (mul_nonneg hB hC) (Ne.symm hz)
    rw [div_le_one hpos]
    have hA : ((dotQ u v : ℚ) : ℝ)
        = ∑ i ∈ Finset.range (min u.length v.length),
            ((u.getD i 0 : ℚ) : ℝ) * ((v.getD i 0 : ℚ) : ℝ) := by
      unfold dotQ
      push_cast
      rfl
    have hu : ∑ i ∈ Finset.range (min u.length v.length), ((u.getD i 0 : ℚ) : ℝ) ^ 2
        ≤ ((dotQ u u : ℚ) : ℝ) := by
      have huu : ((dotQ u u : ℚ) : ℝ)
          = ∑ i ∈ Finset.range u.length, ((u.getD i 0 : ℚ) : ℝ) ^ 2 := by
        unfold dotQ
        push_cast
        rw [min_self]
        exact Finset.sum_congr rfl (fun i _ => (sq ((u.getD i 0 : ℚ) : ℝ)).symm)
      rw [huu]
      refine Finset.sum_le_sum_of_subset_of_nonneg
        (Finset.range_subset.mpr (min_le_left _ _)) ?_
      intro i _ _
      positivity
    have hv : ∑ i ∈ Finset.range (min u.length v.length), ((v.getD i 0 : ℚ) : ℝ) ^ 2
        ≤ ((dotQ v v : ℚ) : ℝ) := by
      have hvv : ((dotQ v v : ℚ) : ℝ)
          = ∑ i ∈ Finset.range v.length, ((v.getD i 0 : ℚ) : ℝ) ^ 2 := by
        unfold dotQ
        push_cast
        rw [min_self]
        exact Finset.sum_congr rfl (fun i _ => (sq ((v.getD i 0 : ℚ) : ℝ)).symm)
      rw [hvv]
      refine Finset.sum_le_sum_of_subset_of_nonneg
        (Finset.range_subset.mpr (min_le_right _ _)) ?_
      intro i _ _
      positivity
    calc ((dotQ u v : ℚ) : ℝ)
        = ∑ i ∈ Finset.range (min u.length v.length),
            ((u.getD i 0 : ℚ) : ℝ) * ((v.getD i 0 : ℚ) : ℝ) := hA
      _ ≤ Real.sqrt (∑ i ∈ Finset.range (min u.length v.length),
              ((u.getD i 0 : ℚ) : ℝ) ^ 2)
            * Real.sqrt (∑ i ∈ Finset.range (min u.length v.length),
              ((v.getD i 0 : ℚ) : ℝ) ^ 2) :=
        Real.sum_mul_le_sqrt_mul_sqrt _ _ _
      _ ≤ Real.sqrt ((dotQ u u : ℚ) : ℝ) * Real.sqrt ((dotQ v v : ℚ) : ℝ) :=
        mul_le_mul (Real.sqrt_le_sqrt hu) (Real.sqrt_le_sqrt hv)
          (Real.sqrt_nonneg _) (Real.sqrt_nonneg _)

theorem dictGet_bounds (m : List (String × ℚ)) (key : String)
    (h : ∀ p ∈ m, 0 ≤ p.2 ∧ p.2 ≤ 1) :
    0 ≤ dictGet m key (1/2) ∧ dictGet m key (1/2) ≤ 1 := by
  unfold dictGet
  rcases hfind : m.find? (fun p => p.1 = key) with _ | p <;> simp only [hfind]
  · norm_num
  · exact h p (List.mem_of_find?_eq_some hfind)

theorem guarded_ratio_bounds (s t : ℚ) (hs : 0 ≤ s) (hst : s ≤ t) :
    0 ≤ (if t > 0 then s / t else 1) ∧ (if t > 0 then s / t else 1) ≤ 1 := by
  split_ifs with h
  · exact ⟨div_nonneg hs (le_of_lt h), (div_le_one h).mpr hst⟩
  · norm_num

namespace RecommendationEngine

set_option maxHeartbeats 1600000 in
theorem calculateNotesScore_bounds (r : Restaurant)
    (np : Option NotesPreferences) :
    0 ≤ calculateNotesScore r np ∧ calculateNotesScore r np ≤ 1 := by
  have hterm : ∀ (a mc : Bool) (w : ℚ), 0 ≤ w →
      (0 ≤ (if a = true then (if mc = true then w else 0) else 0)
        ∧ (if a = true then (if mc = true then w else 0) else 0)
            ≤ (if a = true then w else 0)) := by
    intro a mc w hw
    cases a <;> cases mc <;> simp [hw]
  have hterm3 := fun a mc => hterm a mc (3/10) (by norm_num)
  have hterm5 := fun a mc => hterm a mc (1/5) (by norm_num)
  have haccum : ∀ p : NotesPreferences, 0 ≤ (notesScoreAccum r p).1
      ∧ (notesScoreAccum r p).1 ≤ (notesScoreAccum r p).2 := by
    intro p
    simp only [notesScoreAccum]
    have haff1 : 0 ≤ (if p.affordable = true then
        (if (lowerStr r.priceRange) = "affordable" then (1/5 : ℚ) else 0) else 0) := by
      split_ifs <;> norm_num
    have haff2 : (if p.affordable = true then
          (if (lowerStr r.priceRange) = "affordable" then (1/5 : ℚ) else 0) else 0)
        ≤ (if p.affordable = true then (1/5 : ℚ) else 0) := by
      split_ifs <;> norm_num
    constructor
    · exact add_nonneg (add_nonneg (add_nonneg (add_nonneg (add_nonneg
        (add_nonneg (hterm3 _ _).1 (hterm5 _ _).1) (hterm5 _ _).1)
        (hterm5 _ _).1) (hterm5 _ _).1) haff1) (hterm5 _ _).1
    · exact add_le_add (add_le_add (add_le_add (add_le_add (add_le_add
        (add_le_add (hterm3 _ _).2 (hterm5 _ _).2) (hterm5 _ _).2)
        (hterm5 _ _).2) (hterm5 _ _).2) haff2) (hterm5 _ _).2
  cases np with
  | none => simp [calculateNotesScore]
  | some p =>
    simp only [calculateNotesScore]
    exact guarded_ratio_bounds ((notesScoreAccum r p).1) ((notesScoreAccum r p).2)
      (haccum p).1 (haccum p).2

theorem calculateContentSimilarity_bounds (catalog : List Restaurant)
    (restVecs : Option (List (List ℚ))) (userVec : List ℚ) (r : Restaurant) :
    0 ≤ calculateContentSimilarity catalog restVecs userVec r
      ∧ calculateContentSimilarity catalog restVecs userVec r ≤ 1 := by
  unfold calculateContentSimilarity
  cases restVecs with
  | none => norm_num
  | some vecs =>
    rcases h : catalog.findIdx? (fun cand => cand.id = r.id) with _ | idx <;>
      simp only [h]
    · norm_num
    · exact ⟨le_max_left _ _, max_le (by norm_num) (cosineSim_le_one _ _)⟩

end RecommendationEngine

namespace RecommendationEngine

theorem checkCuisineMatch_bounds (r : Restaurant) (c : String) :
    0 ≤ checkCuisineMatch r c ∧ checkCuisineMatch r c ≤ 1 := by
  unfold checkCuisineMatch
  split_ifs <;> norm_num

end RecommendationEngine

/-- Claim C2: whenever a restaurant's mood, occasion and time score maps
take values in [0, 1], the content scorer's final weighted score
0.30·mood + 0.30·occasion + 0.10·time + 0.10·cuisine + 0.10·similarity
+ 0.10·notes lies in [0, 1], for every preference set and notes flags and
every TF-IDF vector configuration. -/
theorem content_score_in_unit_interval (catalog : List Restaurant)
    (restVecs : Option (List (List ℚ))) (userVec : List ℚ)
    (prefs : Preferences) (np : Option RecommendationEngine.NotesPreferences)
    (r : Restaurant)
    (hm : ∀ p ∈ r.moodScores, 0 ≤ p.2 ∧ p.2 ≤ 1)
    (ho : ∀ p ∈ r.occasionScores, 0 ≤ p.2 ∧ p.2 ≤ 1)
    (ht : ∀ p ∈ r.timeScores, 0 ≤ p.2 ∧ p.2 ≤ 1) :
    0 ≤ RecommendationEngine.finalContentScore catalog restVecs userVec prefs np r
      ∧ RecommendationEngine.finalContentScore catalog restVecs userVec prefs np r ≤ 1 := by
  have Hm := dictGet_bounds r.moodScores (lowerStr prefs.mood) hm
  have Ho := dictGet_bounds r.occasionScores (lowerStr prefs.occasion) ho
  have Ht := dictGet_bounds r.timeScores (lowerStr prefs.time) ht
  have Hc := RecommendationEngine.checkCuisineMatch_bounds r prefs.cuisine
  have Hn := RecommendationEngine.calculateNotesScore_bounds r np
  have Hs := RecommendationEngine.calculateContentSimilarity_bounds catalog restVecs userVec r
  have hm0 : (0:ℝ) ≤ (RecommendationEngine.calculateMoodScore r prefs.mood : ℝ) := by
    exact_mod_cast Hm.1
  have hm1 : (RecommendationEngine.calculateMoodScore r prefs.mood : ℝ) ≤ 1 := by
    exact_mod_cast Hm.2
  have ho0 : (0:ℝ) ≤ (RecommendationEngine.calculateOccasionScore r prefs.occasion : ℝ) := by
    exact_mod_cast Ho.1
  have ho1 : (RecommendationEngine.calculateOccasionScore r prefs.occasion : ℝ) ≤ 1 := by
    exact_mod_cast Ho.2
  have ht0 : (0:ℝ) ≤ (RecommendationEngine.calculateTimeScore r prefs.time : ℝ) := by
    exact_mod_cast Ht.1
  have ht1 : (RecommendationEngine.calculateTimeScore r prefs.time : ℝ) ≤ 1 := by
    exact_mod_cast Ht.2
  have hc0 : (0:ℝ) ≤ (RecommendationEngine.checkCuisineMatch r prefs.cuisine : ℝ) := by
    exact_mod_cast Hc.1
  have hc1 : (RecommendationEngine.checkCuisineMatch r prefs.cuisine : ℝ) ≤ 1 := by
    exact_mod_cast Hc.2
  have hn0 : (0:ℝ) ≤ (RecommendationEngine.calculateNotesScore r np : ℝ) := by
    exact_mod_cast Hn.1
  have hn1 : (RecommendationEngine.calculateNotesScore r np : ℝ) ≤ 1 := by
    exact_mod_cast Hn.2
  unfold RecommendationEngine.finalContentScore
  constructor <;> linarith [Hs.1, Hs.2]

/-- Witness for C2: a concrete restaurant with unit-interval score maps and
no vectors gets a final content score in [0, 1]. -/
theorem content_score_in_unit_interval_witness :
    0 ≤ RecommendationEngine.finalContentScore [indianRestaurant] none []
        { mood := "happy", occasion := "celebration", cuisine := "indian",
          dietaryPreference := "vegetarian", time := "dinner" } none indianRestaurant
      ∧ RecommendationEngine.finalContentScore [indianRestaurant] none []
        { mood := "happy", occasion := "celebration", cuisine := "indian",
          dietaryPreference := "vegetarian", time := "dinner" } none indianRestaurant ≤ 1 :=
  content_score_in_unit_interval [indianRestaurant] none []
    { mood := "happy", occasion := "celebration", cuisine := "indian",
      dietaryPreference := "vegetarian", time := "dinner" } none indianRestaurant
    (by simp [indianRestaurant]) (by simp [indianRestaurant]) (by simp [indianRestaurant])

namespace CollaborativeFiltering

/-- Lookup of a key's accumulated value in the score dict. -/
noncomputable def alookup (r : Int) (d : List (Int × ℝ)) : Option ℝ :=
  (d.find? (fun q => q.1 = r)).map Prod.snd

theorem alookup_cons_skip (r : Int) (x : Int × ℝ) (l : List (Int × ℝ))
    (hx : x.1 ≠ r) : alookup r (x :: l) = alookup r l := by
  unfold alookup
  rw [List.find?_cons_of_neg]
  simpa using hx

theorem alookup_cons_hit (r : Int) (x : Int × ℝ) (l : List (Int × ℝ))
    (hx : x.1 = r) : alookup r (x :: l) = some x.2 := by
  unfold alookup
  rw [List.find?_cons_of_pos]
  · rfl
  · simpa using hx

theorem alookup_upsertAdd_self (r : Int) (s : ℝ) (d : List (Int × ℝ)) :
    alookup r (upsertAdd r s d) = some ((alookup r d).getD 0 + s) := by
  induction d with
  | nil =>
    rw [show upsertAdd r s [] = [(r, s)] from rfl, alookup_cons_hit r (r, s) [] rfl]
    simp [alookup]
  | cons p t ih =>
    by_cases h : p.1 = r
    · rw [show upsertAdd r s (p :: t) = (p.1, p.2 + s) :: t from by simp [upsertAdd, h],
        alookup_cons_hit r (p.1, p.2 + s) t h, alookup_cons_hit r p t h]
      simp
    · rw [show upsertAdd r s (p :: t) = p :: upsertAdd r s t from by simp [upsertAdd, h],
        alookup_cons_skip r p _ h, alookup_cons_skip r p t h, ih]

theorem alookup_upsertAdd_other (r r' : Int) (s : ℝ) (d : List (Int × ℝ))
    (h : r ≠ r') : alookup r (upsertAdd r' s d) = alookup r d := by
  induction d with
  | nil =>
    rw [show upsertAdd r' s [] = [(r', s)] from rfl,
      alookup_cons_skip r (r', s) [] (Ne.symm h)]
  | cons p t ih =>
    by_cases hp : p.1 = r'
    · rw [show upsertAdd r' s (p :: t) = (p.1, p.2 + s) :: t from by simp [upsertAdd, hp],
        alookup_cons_skip r (p.1, p.2 + s) t (by rw [hp]; exact Ne.symm h),
        alookup_cons_skip r p t (by rw [hp]; exact Ne.symm h)]
    · by_cases hr : p.1 = r
      · rw [show upsertAdd r' s (p :: t) = p :: upsertAdd r' s t from by simp [upsertAdd, hp],
          alookup_cons_hit r p _ hr, alookup_cons_hit r p t hr]
      · rw [show upsertAdd r' s (p :: t) = p :: upsertAdd r' s t from by simp [upsertAdd, hp],
          alookup_cons_skip r p _ hr, alookup_cons_skip r p t hr, ih]

theorem alookup_foldl_touched (s : ℝ) (r : Int) :
    ∀ (L : List Int) (d : List (Int × ℝ)), L.Nodup →
      alookup r (L.foldl (fun acc x => upsertAdd x s acc) d)
        = if r ∈ L then some ((alookup r d).getD 0 + s) else alookup r d := by
  intro L
  induction L with
  | nil => intro d _; simp
  | cons x L ih =>
    intro d hnd
    rcases List.nodup_cons.mp hnd with ⟨hx, hL⟩
    rw [List.foldl_cons]
    by_cases hrx : r = x
    · subst hrx
      rw [ih _ hL, if_neg hx, if_pos (List.mem_cons_self _ _),
        alookup_upsertAdd_self]
    · rw [ih _ hL, alookup_upsertAdd_other r x s d hrx]
      by_cases hrL : r ∈ L
      · rw [if_pos hrL, if_pos (List.mem_cons_of_mem _ hrL)]
      · rw [if_neg hrL, if_neg (by simp [hrx, hrL])]

/-- Sum of the similarities of the listed users who interacted with
restaurant `r`. -/
noncomputable def simSumOver (log : List Interaction)
    (pairs : List (String × ℝ)) (r : Int) : ℝ :=
  ((pairs.filter (fun p => decide (r ∈ touchedRestaurants log p.1))).map
    Prod.snd).sum

theorem simSumOver_nil (log : List Interaction) (r : Int) :
    simSumOver log [] r = 0 := rfl

theorem simSumOver_eq_zero (log : List Interaction) (ps : List (String × ℝ))
    (r : Int) (h : ps.any (fun p => decide (r ∈ touchedRestaurants log p.1)) = false) :
    simSumOver log ps r = 0 := by
  unfold simSumOver
  have : ps.filter (fun p => decide (r ∈ touchedRestaurants log p.1)) = [] := by
    rw [List.filter_eq_nil_iff]
    intro a ha
    have := List.any_eq_false.mp h a ha
    simpa using this
  simp [this]

theorem alookup_scores_foldl (log : List Interaction) (r : Int) :
    ∀ (pairs : List (String × ℝ)) (d : List (Int × ℝ)),
      alookup r (pairs.foldl
          (fun acc p => (touchedRestaurants log p.1).foldl
            (fun acc2 x => upsertAdd x p.2 acc2) acc) d)
        = if pairs.any (fun p => decide (r ∈ touchedRestaurants log p.1)) then
            some ((alookup r d).getD 0 + simSumOver log pairs r)
          else alookup r d := by
  intro pairs
  induction pairs with
  | nil => intro d; simp [simSumOver]
  | cons p ps ih =>
    intro d
    rw [List.foldl_cons, ih,
      alookup_foldl_touched p.2 r (touchedRestaurants log p.1) d (List.nodup_dedup _)]
    by_cases hmem : r ∈ touchedRestaurants log p.1
    · rw [if_pos hmem]
      have hc : (p :: ps).any (fun q => decide (r ∈ touchedRestaurants log q.1)) = true := by
        simp [List.any_cons, hmem]
      rw [hc]
      simp only [if_pos rfl]
      by_cases hany : ps.any (fun q => decide (r ∈ touchedRestaurants log q.1)) = true
      · rw [if_pos hany]
        have hsum : simSumOver log (p :: ps) r = p.2 + simSumOver log ps r := by
          simp [simSumOver, List.filter_cons, hmem]
        rw [hsum]
        simp [add_assoc]
      · rw [if_neg hany]
        have hzero : simSumOver log ps r = 0 :=
          simSumOver_eq_zero log ps r (by simpa using hany)
        have hsum : simSumOver log (p :: ps) r = p.2 + simSumOver log ps r := by
          simp [simSumOver, List.filter_cons, hmem]
        rw [hsum, hzero]
        simp
    · rw [if_neg hmem]
      have hc : (p :: ps).any (fun q => decide (r ∈ touchedRestaurants log q.1))
          = ps.any (fun q => decide (r ∈ touchedRestaurants log q.1)) := by
        simp [List.any_cons, hmem]
      have hsum : simSumOver log (p :: ps) r = simSumOver log ps r := by
        simp [simSumOver, List.filter_cons, hmem]
      rw [hc, hsum]

end CollaborativeFiltering

namespace CollaborativeFiltering

theorem keys_upsertAdd (r : Int) (s : ℝ) (d : List (Int × ℝ)) :
    (upsertAdd r s d).map Prod.fst =
      if r ∈ d.map Prod.fst then d.map Prod.fst else d.map Prod.fst ++ [r] := by
  induction d with
  | nil => simp [upsertAdd]
  | cons p t ih =>
    by_cases h : p.1 = r
    · simp [upsertAdd, h]
    · simp only [upsertAdd, if_neg h, List.map_cons, ih]
      by_cases hm : r ∈ t.map Prod.fst
      · simp [hm, h, Ne.symm h]
      · simp [hm, h, Ne.symm h]

theorem keys_nodup_upsertAdd (r : Int) (s : ℝ) (d : List (Int × ℝ))
    (h : (d.map Prod.fst).Nodup) : ((upsertAdd r s d).map Prod.fst).Nodup := by
  rw [keys_upsertAdd]
  by_cases hm : r ∈ d.map Prod.fst
  · simpa [hm] using h
  · simp only [if_neg hm]
    simp [List.nodup_append, h, hm]

theorem keys_nodup_foldl_touched (s : ℝ) (L : List Int) :
    ∀ d : List (Int × ℝ), (d.map Prod.fst).Nodup →
      (((L.foldl (fun acc x => upsertAdd x s acc) d)).map Prod.fst).Nodup := by
  induction L with
  | nil => intro d h; simpa using h
  | cons x L ih =>
    intro d h
    rw [List.foldl_cons]
    exact ih _ (keys_nodup_upsertAdd x s d h)

theorem keys_nodup_scores_foldl (log : List Interaction)
    (pairs : List (String × ℝ)) :
    ∀ d : List (Int × ℝ), (d.map Prod.fst).Nodup →
      ((pairs.foldl
          (fun acc p => (touchedRestaurants log p.1).foldl
            (fun acc2 x => upsertAdd x p.2 acc2) acc) d).map Prod.fst).Nodup := by
  induction pairs with
  | nil => intro d h; simpa using h
  | cons p ps ih =>
    intro d h
    rw [List.foldl_cons]
    exact ih _ (keys_nodup_foldl_touched p.2 (touchedRestaurants log p.1) d h)

theorem collaborativeScores_keys_nodup (log : List Interaction) (u : String) :
    ((collaborativeScores log u).map Prod.fst).Nodup := by
  unfold collaborativeScores
  exact keys_nodup_scores_foldl log (getSimilarUsers log u 10) [] (by simp)

theorem alookup_of_mem (r : Int) (s : ℝ) :
    ∀ d : List (Int × ℝ), (d.map Prod.fst).Nodup → (r, s) ∈ d →
      alookup r d = some s := by
  intro d
  induction d with
  | nil => intro _ h; simp at h
  | cons p t ih =>
    intro hnd hmem
    rcases List.nodup_cons.mp hnd with ⟨hp, ht⟩
    rcases List.mem_cons.mp hmem with hmem | hmem
    · rw [← hmem]
      exact alookup_cons_hit r (r, s) t rfl
    · by_cases hr : p.1 = r
      · exfalso
        apply hp
        rw [hr]
        exact List.mem_map.mpr ⟨(r, s), hmem, rfl⟩
      · rw [alookup_cons_skip r p t hr]
        exact ih ht hmem

theorem collaborativeScores_value (log : List Interaction) (u : String)
    (r : Int) (s : ℝ) (h : (r, s) ∈ collaborativeScores log u) :
    s = simSumOver log (getSimilarUsers log u 10) r := by
  have hl : alookup r (collaborativeScores log u) = some s :=
    alookup_of_mem r s _ (collaborativeScores_keys_nodup log u) h
  have hf := alookup_scores_foldl log r (getSimilarUsers log u 10) []
  unfold collaborativeScores at hl
  rw [hf] at hl
  by_cases hany : (getSimilarUsers log u 10).any
      (fun p => decide (r ∈ touchedRestaurants log p.1)) = true
  · rw [if_pos hany] at hl
    simp [alookup] at hl
    exact hl.symm
  · rw [if_neg hany] at hl
    simp [alookup] at hl

end CollaborativeFiltering

/-- Restaurant with id 10 for the collaborative scenario. -/
def rest10 : Restaurant := { id := 10, restaurantName := "Bistro Ten" }

/-- Restaurant with id 20 for the collaborative scenario. -/
def rest20 : Restaurant := { id := 20, restaurantName := "Bistro Twenty" }

/-- Restaurant untouched by any user in the collaborative scenario. -/
def rest30 : Restaurant := { id := 30, restaurantName := "Bistro Thirty" }

/-- Catalog of the collaborative scenario. -/
def scenarioCatalog : List Restaurant := [rest10, rest20, rest30]

namespace CollaborativeFiltering

theorem getCollabRecs_body (log : List Interaction) (u : String)
    (restaurants : List Restaurant) (topK : Nat)
    (hg : 2 ≤ (userIds log).length ∧ u ∈ userIds log)
    (he : (getSimilarUsers log u 10).isEmpty = false) :
    getCollaborativeRecommendations log u restaurants topK =
      (sortDescBy Prod.snd ((collaborativeScores log u).filterMap (fun p =>
        match (restaurants.reverse).find? (fun rest => rest.id = p.1) with
        | some rest =>
          if p.1 ∈ touchedRestaurants log u then none else some (rest, p.2)
        | none => none))).take topK := by
  unfold getCollaborativeRecommendations
  rw [if_pos hg]
  simp only [he, Bool.false_eq_true, if_false]

end CollaborativeFiltering

/-- Claim C8: collaborative recommendations never contain a restaurant the
target user interacted with nor an id absent from the catalog, are sorted
descending by score and truncated to `topK`, and each score is the sum of
the similarities of the top-10 similar users who interacted with that
restaurant; in the spec scenario (a rated 10 = 5; b rated 10 = 5 and
20 = 4) the recommendations for a consist exactly of restaurant 20 with a
positive score, ranking it above every restaurant neither similar user
touched (absent from the output). -/
theorem collaborative_recommendations_correct :
    (∀ (log : List CollaborativeFiltering.Interaction) (u : String)
        (restaurants : List Restaurant) (topK : Nat),
      (∀ p ∈ CollaborativeFiltering.getCollaborativeRecommendations log u
          restaurants topK,
        p.1 ∈ restaurants
          ∧ p.1.id ∉ CollaborativeFiltering.touchedRestaurants log u
          ∧ p.2 = CollaborativeFiltering.simSumOver log
              (CollaborativeFiltering.getSimilarUsers log u 10) p.1.id)
      ∧ List.Sorted (fun a b => b.2 ≤ a.2)
          (CollaborativeFiltering.getCollaborativeRecommendations log u
            restaurants topK)
      ∧ (CollaborativeFiltering.getCollaborativeRecommendations log u
          restaurants topK).length ≤ topK)
    ∧ (∃ s, CollaborativeFiltering.getCollaborativeRecommendations scenarioLog "a"
          scenarioCatalog 9 = [(rest20, s)] ∧ 0 < s) := by
  constructor
  · intro log u restaurants topK
    by_cases hg : 2 ≤ (CollaborativeFiltering.userIds log).length ∧
        u ∈ CollaborativeFiltering.userIds log
    · by_cases he : (CollaborativeFiltering.getSimilarUsers log u 10).isEmpty = true
      · have hout : CollaborativeFiltering.getCollaborativeRecommendations log u
            restaurants topK = [] := by
          unfold CollaborativeFiltering.getCollaborativeRecommendations
          rw [if_pos hg]
          simp only [he, if_true]
        rw [hout]
        exact ⟨by simp, by simp, by simp⟩
      · rw [CollaborativeFiltering.getCollabRecs_body log u restaurants topK hg
          (by simpa using he)]
        refine ⟨?_, ?_, ?_⟩
        · intro p hp
          have hp2 : p ∈ sortDescBy Prod.snd
              ((CollaborativeFiltering.collaborativeScores log u).filterMap (fun q =>
                match (restaurants.reverse).find? (fun rest => rest.id = q.1) with
                | some rest =>
                  if q.1 ∈ CollaborativeFiltering.touchedRestaurants log u then none
                  else some (rest, q.2)
                | none => none)) := List.take_subset _ _ hp
          have hp3 := (mem_sortDescBy Prod.snd p _).mp hp2
          obtain ⟨e, he_mem, hfe⟩ := List.mem_filterMap.mp hp3
          rcases hfind : (restaurants.reverse).find? (fun rest => rest.id = e.1)
            with _ | rest
          · rw [hfind] at hfe
            simp at hfe
          · rw [hfind] at hfe
            dsimp only at hfe
            by_cases hmem : e.1 ∈ CollaborativeFiltering.touchedRestaurants log u
            · rw [if_pos hmem] at hfe
              simp at hfe
            · rw [if_neg hmem] at hfe
              have hp4 : (rest, e.2) = p := by simpa using hfe
              have hid : rest.id = e.1 := by
                simpa using List.find?_some hfind
              subst hp4
              refine ⟨List.mem_reverse.mp (List.mem_of_find?_eq_some hfind), ?_, ?_⟩
              · simpa [hid] using hmem
              · have hval := CollaborativeFiltering.collaborativeScores_value log u
                  e.1 e.2 he_mem
                simpa [hid] using hval
        · exact List.Pairwise.sublist (List.take_sublist _ _)
            (sorted_sortDescBy Prod.snd _)
        · exact List.length_take_le _ _
    · have hout : CollaborativeFiltering.getCollaborativeRecommendations log u
          restaurants topK = [] := by
        unfold CollaborativeFiltering.getCollaborativeRecommendations
        rw [if_neg hg]
      rw [hout]
      exact ⟨by simp, by simp, by simp⟩
  · -- the scenario computation
    have hguard : 2 ≤ (CollaborativeFiltering.userIds scenarioLog).length ∧
        "a" ∈ CollaborativeFiltering.userIds scenarioLog := by decide
    have hfilter : (CollaborativeFiltering.userIds scenarioLog).filter
        (fun v => v ≠ "a") = ["b"] := by decide
    have hsimilar : CollaborativeFiltering.getSimilarUsers scenarioLog "a" 10
        = [("b", CollaborativeFiltering.similarityValue scenarioLog "a" "b")] := by
      unfold CollaborativeFiltering.getSimilarUsers
      rw [if_pos hguard, hfilter]
      simp
    have htouchedB : CollaborativeFiltering.touchedRestaurants scenarioLog "b"
        = [10, 20] := by decide
    have htouchedA : CollaborativeFiltering.touchedRestaurants scenarioLog "a"
        = [10] := by decide
    have hscores : CollaborativeFiltering.collaborativeScores scenarioLog "a"
        = [(10, CollaborativeFiltering.similarityValue scenarioLog "a" "b"),
           (20, CollaborativeFiltering.similarityValue scenarioLog "a" "b")] := by
      unfold CollaborativeFiltering.collaborativeScores
      rw [hsimilar]
      simp [htouchedB, CollaborativeFiltering.upsertAdd]
    have hout : CollaborativeFiltering.getCollaborativeRecommendations scenarioLog
        "a" scenarioCatalog 9
        = [(rest20, CollaborativeFiltering.similarityValue scenarioLog "a" "b")] := by
      rw [CollaborativeFiltering.getCollabRecs_body scenarioLog "a" scenarioCatalog 9
        hguard (by rw [hsimilar]; rfl), hscores, htouchedA]
      simp [scenarioCatalog, rest10, rest20, rest30]
    refine ⟨CollaborativeFiltering.similarityValue scenarioLog "a" "b", hout, ?_⟩
    have hva : CollaborativeFiltering.userVector scenarioLog "a" = [10, 0] := by
      have h10 : CollaborativeFiltering.entryScore scenarioLog "a" 10
          = CollaborativeFiltering.interactionScore interA := rfl
      have h20 : CollaborativeFiltering.entryScore scenarioLog "a" 20 = 0 := rfl
      have hr : CollaborativeFiltering.restaurantIds scenarioLog = [10, 20] := by decide
      unfold CollaborativeFiltering.userVector
      rw [hr]
      simp [h10, h20, CollaborativeFiltering.interactionScore, interA]
      norm_num
    have hvb : CollaborativeFiltering.userVector scenarioLog "b" = [10, 8] := by
      have h10 : CollaborativeFiltering.entryScore scenarioLog "b" 10
          = CollaborativeFiltering.interactionScore interB1 := rfl
      have h20 : CollaborativeFiltering.entryScore scenarioLog "b" 20
          = CollaborativeFiltering.interactionScore interB2 := rfl
      have hr : CollaborativeFiltering.restaurantIds scenarioLog = [10, 20] := by decide
      unfold CollaborativeFiltering.userVector
      rw [hr]
      simp [h10, h20, CollaborativeFiltering.interactionScore, interB1, interB2]
      norm_num
    unfold CollaborativeFiltering.similarityValue
    rw [hva, hvb]
    unfold cosineSim
    have hd1 : dotQ [10, 0] [10, 8] = 100 := by
      simp [dotQ, Finset.sum_range_succ]
      norm_num
    have hd2 : dotQ [(10:ℚ), 0] [10, 0] = 100 := by
      simp [dotQ, Finset.sum_range_succ]
      norm_num
    have hd3 : dotQ [(10:ℚ), 8] [10, 8] = 164 := by
      simp [dotQ, Finset.sum_range_succ]
      norm_num
    rw [hd1, hd2, hd3]
    push_cast
    apply div_pos (by norm_num)
    exact mul_pos (Real.sqrt_pos.mpr (by norm_num)) (Real.sqrt_pos.mpr (by norm_num))

/-- Witness for C8: applying the membership properties to the concrete
scenario output (restaurant 20 recommended to user a). -/
theorem collaborative_recommendations_correct_witness :
    rest20 ∈ scenarioCatalog
    ∧ rest20.id ∉ CollaborativeFiltering.touchedRestaurants scenarioLog "a" := by
  obtain ⟨s, hout, hs⟩ := collaborative_recommendations_correct.2
  have hmem : (rest20, s) ∈ CollaborativeFiltering.getCollaborativeRecommendations
      scenarioLog "a" scenarioCatalog 9 := by
    rw [hout]
    exact List.mem_singleton_self _
  have h := (collaborative_recommendations_correct.1 scenarioLog "a"
    scenarioCatalog 9).1 (rest20, s) hmem
  exact ⟨h.1, h.2.1⟩

/-- Claim C7: the full ranking pipeline is a pure function of the engine
state (catalog, interaction log, fetched store) and its deterministic
external collaborators, so running the same request twice with no state
persisted in between (the first run returns the state unchanged) produces
identical output, and the second run again persists nothing. -/
theorem recommend_idempotent (ext : EnhancedEngine.Externals)
    (req : EnhancedEngine.Request) (st : EnhancedEngine.EngineState)
    (h : (EnhancedEngine.recommend ext req st).2 = st) :
    (EnhancedEngine.recommend ext req
        ((EnhancedEngine.recommend ext req st).2)).1
      = (EnhancedEngine.recommend ext req st).1
    ∧ (EnhancedEngine.recommend ext req
        ((EnhancedEngine.recommend ext req st).2)).2 = st := by
  rw [h]
  exact ⟨rfl, h⟩

/-- Externals whose vectorizers return nothing and whose AI clients always
fail (deterministic collaborators for the idempotence witness). -/
def trivialExternals : EnhancedEngine.Externals :=
  { contentVecs := fun _ => none, contentQueryVec := fun _ _ => [],
    searchVecs := fun _ => none, searchQueryVec := fun _ _ => [],
    providers := failingProviders }

/-- Query-free recommendation request. -/
def noQueryRequest : EnhancedEngine.Request :=
  { mood := "happy", occasion := "casual meal", cuisine := "any",
    dietaryPreference := "vegetarian", time := "dinner" }

/-- Engine state for the idempotence witness. -/
def initialState : EnhancedEngine.EngineState :=
  { restaurants := [indianRestaurant], baseRestaurants := [indianRestaurant],
    fetched := [], log := [] }

/-- Witness for C7: a query-free request against a concrete state persists
nothing, so the second identical run returns the same ranked list and the
same state. -/
theorem recommend_idempotent_witness :
    (EnhancedEngine.recommend trivialExternals noQueryRequest
        ((EnhancedEngine.recommend trivialExternals noQueryRequest initialState).2)).1
      = (EnhancedEngine.recommend trivialExternals noQueryRequest initialState).1
    ∧ (EnhancedEngine.recommend trivialExternals noQueryRequest
        ((EnhancedEngine.recommend trivialExternals noQueryRequest initialState).2)).2
      = initialState :=
  recommend_idempotent trivialExternals noQueryRequest initialState rfl
